import Mathlib

/-!
# Verification of the code-dojo architectural analysis core

Shallow embedding, in Lean 4, of the parts of the `code-dojo` repository that
the specification's claims are about:

* `services/code_parser.py`   — per-language lexical extraction of imports,
  API routes and database models from text fragments;
* `services/architectural_analyzer.py` — dependency / API / schema change
  reports, component identification and impact assessment;
* `services/diagram_generator.py` — Mermaid diagram rendering;
* `services/review_orchestrator.py` — the review workflow nodes, the
  streaming progress drivers and the persistence step.

Python strings are modelled as Lean `String` (in this toolchain a wrapper
around `List Char`); all string manipulation is done by explicit structural
functions mirroring the Python operations used by the source (split, strip,
startswith, slicing, `in`, join, lower/upper/title).  Python's `re.match`
patterns are hand-compiled into equivalent prefix matchers, including the
backtracking behaviour relevant to each pattern; `\w` is modelled as
ASCII-alphanumeric-or-underscore (all inputs of interest are ASCII).
Python `dict`s that the code iterates are modelled as association lists in
insertion order; Python `set`s as duplicate-free lists with order-insensitive
use (membership, `sorted`, `len`).  CPython's float arithmetic in the
progress computation is modelled exactly (IEEE-754 binary64 round-to-nearest,
ties-to-even), as pure rational rounding.
-/

set_option linter.unusedVariables false

namespace CodeDojo

abbrev Chars := List Char

/-- Python `str.isspace` characters relevant to `str.strip()`. -/
def pyIsSpace (c : Char) : Bool :=
  c = ' ' || c = '\t' || c = '\n' || c = '\x0b' || c = '\x0c' || c = '\r'

/-- Python regex `\w` (ASCII fragment): letters, digits, underscore. -/
def isWordChar (c : Char) : Bool := c.isAlphanum || c = '_'

def splitOnCharAux (sep : Char) : Chars → Chars → List Chars
  | [], acc => [acc.reverse]
  | c :: rest, acc =>
    if c = sep then acc.reverse :: splitOnCharAux sep rest []
    else splitOnCharAux sep rest (c :: acc)

/-- Python `s.split(sep)` for a one-character separator. -/
def splitOnChar (sep : Char) (l : Chars) : List Chars := splitOnCharAux sep l []

/-- Python `s.strip()` on character lists. -/
def pyStripChars (l : Chars) : Chars :=
  ((l.dropWhile pyIsSpace).reverse.dropWhile pyIsSpace).reverse

/-- Python `s.strip(chars)` with an explicit strip set. -/
def pyStripSet (cs : Chars) (l : Chars) : Chars :=
  ((l.dropWhile cs.contains).reverse.dropWhile cs.contains).reverse

def pySplit (sep : Char) (s : String) : List String :=
  (splitOnChar sep s.data).map String.mk

def pyStrip (s : String) : String := ⟨pyStripChars s.data⟩

def pyStartsWith (pre s : String) : Bool := pre.data.isPrefixOf s.data

def pyEndsWith (suf s : String) : Bool := suf.data.isSuffixOf s.data

def pyLower (s : String) : String := ⟨s.data.map Char.toLower⟩

def pyUpper (s : String) : String := ⟨s.data.map Char.toUpper⟩

/-- Python `needle in hay` on strings (substring test). -/
def listInfixB (n : Chars) : Chars → Bool
  | [] => n.isEmpty
  | c :: rest => n.isPrefixOf (c :: rest) || listInfixB n rest

def pyIn (needle hay : String) : Bool := listInfixB needle.data hay.data

/-- Python `sep.join(items)`. -/
def pyJoin (sep : String) : List String → String
  | [] => ""
  | x :: xs =>
    match xs with
    | [] => x
    | _ :: _ => x ++ sep ++ pyJoin sep xs

/-- Prefix of `l` before the first occurrence of `sub` (Python `l.split(sub)[0]`). -/
def takeBeforeSub (sub : Chars) : Chars → Chars
  | [] => []
  | c :: rest =>
    if sub.isPrefixOf (c :: rest) then []
    else c :: takeBeforeSub sub rest

/-- Index of the first occurrence of `sub` in the remaining text, if any. -/
def findSubAux (sub : Chars) : Chars → Nat → Option Nat
  | [], i => if sub.isEmpty then some i else none
  | hay@(_ :: rest), i =>
    if sub.isPrefixOf hay then some i else findSubAux sub rest (i + 1)

/-- Python `s.find(sub)`: first index, or `-1` when absent. -/
def pyFind (s sub : String) : Int :=
  match findSubAux sub.data s.data 0 with
  | some n => (n : Int)
  | none => -1

/-- Python `s.title()` (ASCII fragment): letters starting a run are uppercased,
letters inside a run lowercased. -/
def pyTitleAux : Bool → Chars → Chars
  | _, [] => []
  | prevAlpha, c :: rest =>
    (if c.isAlpha then (if prevAlpha then c.toLower else c.toUpper) else c)
      :: pyTitleAux c.isAlpha rest

def pyTitle (s : String) : String := ⟨pyTitleAux false s.data⟩

/-- Python `s.capitalize()`: first character uppercased, the rest lowercased. -/
def pyCapitalize (s : String) : String :=
  match s.data with
  | [] => ""
  | c :: rest => ⟨c.toUpper :: rest.map Char.toLower⟩

/-! ## Regex-matcher building blocks

Each Python `re.match` pattern used by the source is compiled to a prefix
matcher over `Chars`.  `re.match` anchors at the start only, so trailing
unmatched text is ignored.  Greedy quantifiers followed by a token disjoint
from the quantified class need no backtracking; the few places where the
class overlaps (noted individually) implement the actual backtracking. -/

/-- Literal token: succeed with the remaining text. -/
def expectLit (lit : Chars) (l : Chars) : Option Chars := lit.isPrefixOf? l

def expectChar (c : Char) : Chars → Option Chars
  | [] => none
  | x :: rest => if x = c then some rest else none

/-- `\s+` followed by a token that cannot start with whitespace. -/
def afterSpaces1 : Chars → Option Chars
  | [] => none
  | c :: rest =>
    if pyIsSpace c then some ((c :: rest).dropWhile pyIsSpace) else none

/-- `\s*` followed by a token that cannot start with whitespace. -/
def afterSpaces0 (l : Chars) : Chars := l.dropWhile pyIsSpace

/-- A greedy nonempty character-class group `([cls]+)` followed by arbitrary
continuation: returns the captured run and the rest. -/
def classPlus (p : Char → Bool) (l : Chars) : Option (Chars × Chars) :=
  let g := l.takeWhile p
  if g.isEmpty then none else some (g, l.drop g.length)

/-- `\s+([cls]+)` where the class *contains* whitespace (Python
`^import\s+([\w\.,\s]+)`): greedy `\s+` with one step of backtracking when
the character after the whitespace run is outside the class. -/
def spacePlusClassPlus (p : Char → Bool) (l : Chars) : Option Chars :=
  let k := (l.takeWhile pyIsSpace).length
  if k = 0 then none
  else
    match l.drop k with
    | c :: _ =>
      if p c then some ((l.drop k).takeWhile p)
      else if 2 ≤ k then some ((l.drop (k - 1)).takeWhile p) else none
    | [] => if 2 ≤ k then some ((l.drop (k - 1)).takeWhile p) else none

/-- `\s+(.+)` at the end of a pattern: greedy `\s+`, then a nonempty rest;
backtracks one space when the text ends in whitespace. -/
def spacePlusRestPlus (l : Chars) : Option Chars :=
  let k := (l.takeWhile pyIsSpace).length
  if k = 0 then none
  else
    match l.drop k with
    | rest@(_ :: _) => some rest
    | [] => if 2 ≤ k then some (l.drop (k - 1)) else none

/-- Regex alternation `(?:a|b|...)` with continuation backtracking: try the
alternatives in order, each followed by the continuation. -/
def altLit (alts : List Chars) (k : Chars → Option α) (l : Chars) : Option α :=
  alts.findSome? fun a => (expectLit a l).bind k

def isQuote (c : Char) : Bool := c = '\'' || c = '"'

/-- `['"]([^'"]+)['"]`: a quote, a nonempty run of non-quote characters,
a closing quote (either kind). -/
def quotedGroup (l : Chars) : Option (Chars × Chars) :=
  match l with
  | c :: rest =>
    if isQuote c then
      (classPlus (fun d => !isQuote d) rest).bind fun (g, r) =>
        match r with
        | d :: r2 => if isQuote d then some (g, r2) else none
        | [] => none
    else none
  | [] => none

/-! ## `services/code_parser.py` — data records -/

/-- `code_parser.Import`. -/
structure Import where
  module : String
  items : List String
  is_relative : Bool
  language : String
  line_number : Option Nat := none
deriving DecidableEq, Repr

/-- `code_parser.APIRoute`. -/
structure APIRoute where
  method : String
  path : String
  function_name : String
  decorators : List String
  language : String
  line_number : Option Nat := none
deriving DecidableEq, Repr

/-- A `{name, type}` field entry of `code_parser.DatabaseModel.fields`. -/
structure ModelField where
  name : String
  type : String
deriving DecidableEq, Repr

/-- `code_parser.DatabaseModel`. -/
structure DatabaseModel where
  name : String
  fields : List ModelField
  table_name : Option String
  language : String
  line_number : Option Nat := none
deriving DecidableEq, Repr

/-! ## `PythonParser.parse_imports` -/

/-- Character class `[\w\.,\s]` of the Python `^import\s+([\w\.,\s]+)` pattern. -/
def pyImportCls (c : Char) : Bool :=
  isWordChar c || c = '.' || c = ',' || pyIsSpace c

/-- `re.match(r'^import\s+([\w\.,\s]+)', line)`: returns group 1. -/
def matchPyImport (l : Chars) : Option Chars :=
  (expectLit "import".data l).bind (spacePlusClassPlus pyImportCls)

/-- `re.match(r'^from\s+(\.*)(\w[\w\.]*)\s+import\s+(.+)', line)`:
returns `(dots, module, items)`. -/
def matchPyFrom (l : Chars) : Option (Chars × Chars × Chars) :=
  (expectLit "from".data l).bind fun r1 =>
  (afterSpaces1 r1).bind fun r2 =>
    let dots := r2.takeWhile (· = '.')
    match r2.drop dots.length with
    | c :: r4 =>
      if isWordChar c then
        let tail := r4.takeWhile (fun d => isWordChar d || d = '.')
        let module := c :: tail
        (afterSpaces1 (r4.drop tail.length)).bind fun r6 =>
        (expectLit "import".data r6).bind fun r7 =>
        (spacePlusRestPlus r7).map fun items => (dots, module, items)
      else none
    | [] => none

/-- One stripped line of `PythonParser.parse_imports` (both patterns are
tried; they are appended in source order). -/
def pyImportLine (lineNum : Nat) (line : Chars) : List Import :=
  let m1 : List Import :=
    match matchPyImport line with
    | some grp =>
      ((splitOnChar ',' grp).map pyStripChars).map fun module =>
        { module := ⟨module⟩, items := [], is_relative := false,
          language := "python", line_number := some lineNum }
    | none => []
  let m2 : List Import :=
    match matchPyFrom line with
    | some (dots, module, itemsStr) =>
      -- multi-line import: '(' present without ')' is silently skipped
      if itemsStr.contains '(' && !itemsStr.contains ')' then []
      else
        let items : List String :=
          if pyStripChars itemsStr = ['*'] then ["*"]
          else
            let cleaned := itemsStr.filter fun c => !(c = '(') && !(c = ')')
            (splitOnChar ',' cleaned).map fun i =>
              ⟨takeBeforeSub " as ".data (pyStripChars i)⟩
        [{ module := ⟨module⟩, items, is_relative := dots.length > 0,
           language := "python", line_number := some lineNum }]
    | none => []
  m1 ++ m2

/-- `PythonParser.parse_imports`. -/
def parseImportsPython (code : String) : List Import :=
  ((pySplit '\n' code).enum.map fun (i, line) =>
    pyImportLine (i + 1) (pyStripChars line.data)).flatten

/-! ## `JavaScriptParser.parse_imports` (shared by `TypeScriptParser`, which
only rewrites the `language` tag of every record) -/

/-- `re.match(r'import\s+(\w+)\s+from\s+[\'"]([^\'"]+)[\'"]', line)`:
returns `(item, module)`. -/
def matchJsImportDefault (l : Chars) : Option (Chars × Chars) :=
  (expectLit "import".data l).bind afterSpaces1 |>.bind fun r1 =>
  (classPlus isWordChar r1).bind fun (w, r2) =>
  (afterSpaces1 r2).bind fun r3 =>
  (expectLit "from".data r3).bind afterSpaces1 |>.bind fun r4 =>
  (quotedGroup r4).map fun (m, _) => (w, m)

/-- `re.match(r'import\s+\{([^}]+)\}\s+from\s+[\'"]([^\'"]+)[\'"]', line)`:
returns `(items, module)`. -/
def matchJsImportNamed (l : Chars) : Option (Chars × Chars) :=
  (expectLit "import".data l).bind afterSpaces1 |>.bind fun r1 =>
  (expectChar '\x7b' r1).bind fun r2 =>
  (classPlus (fun c => !(c = '\x7d')) r2).bind fun (items, r3) =>
  (expectChar '\x7d' r3).bind afterSpaces1 |>.bind fun r4 =>
  (expectLit "from".data r4).bind afterSpaces1 |>.bind fun r5 =>
  (quotedGroup r5).map fun (m, _) => (items, m)

/-- `re.match(r'(?:const|var|let)\s+(?:\{([^}]+)\}|(\w+))\s*=\s*require\([\'"]([^\'"]+)[\'"]\)', line)`:
returns `(destructured-items?, name?, module)`. -/
def matchJsRequire (l : Chars) : Option (Option Chars × Option Chars × Chars) :=
  altLit ["const".data, "var".data, "let".data]
    (fun r0 =>
      (afterSpaces1 r0).bind fun r1 =>
        let branch : Option ((Option Chars × Option Chars) × Chars) :=
          match r1 with
          | '\x7b' :: r2 =>
            (classPlus (fun c => !(c = '\x7d')) r2).bind fun (items, r3) =>
            (expectChar '\x7d' r3).map fun r4 => ((some items, none), r4)
          | _ =>
            (classPlus isWordChar r1).map fun (w, r2) => ((none, some w), r2)
        branch.bind fun (groups, r5) =>
        (expectChar '=' (afterSpaces0 r5)).bind fun r6 =>
        (expectLit "require(".data (afterSpaces0 r6)).bind fun r7 =>
        (quotedGroup r7).bind fun (m, r8) =>
        (expectChar ')' r8).map fun _ => (groups.1, groups.2, m))
    l

/-- One stripped line of `JavaScriptParser.parse_imports`; all three patterns
are tried and their records appended in source order. -/
def jsImportLine (languageTag : String) (lineNum : Nat) (line : Chars) :
    List Import :=
  let m1 : List Import :=
    match matchJsImportDefault line with
    | some (w, m) =>
      [{ module := ⟨m⟩, items := [⟨w⟩],
         is_relative := ['.'].isPrefixOf m,
         language := languageTag, line_number := some lineNum }]
    | none => []
  let m2 : List Import :=
    match matchJsImportNamed line with
    | some (itemsStr, m) =>
      let items := (splitOnChar ',' itemsStr).map fun i =>
        ⟨takeBeforeSub " as ".data (pyStripChars i)⟩
      [{ module := ⟨m⟩, items,
         is_relative := ['.'].isPrefixOf m,
         language := languageTag, line_number := some lineNum }]
    | none => []
  let m3 : List Import :=
    match matchJsRequire line with
    | some (destructured, direct, m) =>
      let items : List String :=
        match destructured, direct with
        | some g1, _ => (splitOnChar ',' g1).map fun i => ⟨pyStripChars i⟩
        | none, some w => [⟨w⟩]
        | none, none => []
      [{ module := ⟨m⟩, items,
         is_relative := ['.'].isPrefixOf m,
         language := languageTag, line_number := some lineNum }]
    | none => []
  m1 ++ m2 ++ m3

/-- `JavaScriptParser.parse_imports` (and, with `languageTag = "typescript"`,
`TypeScriptParser.parse_imports`, which calls the former and then sets
`language` on every record). -/
def parseImportsJS (languageTag : String) (code : String) : List Import :=
  ((pySplit '\n' code).enum.map fun (i, line) =>
    jsImportLine languageTag (i + 1) (pyStripChars line.data)).flatten

/-! ## `JavaParser.parse_imports` -/

/-- `re.match(r'import\s+([\w\.]+)(?:\.\*)?;', line)`: returns group 1.
The greedy `[\w\.]+` backtracks one character to let the optional `\.\*`
match when the run ends in a dot followed by `*;`. -/
def matchJavaImport (l : Chars) : Option Chars :=
  (expectLit "import".data l).bind afterSpaces1 |>.bind fun r1 =>
  (classPlus (fun c => isWordChar c || c = '.') r1).bind fun (g, rest) =>
    match rest with
    | ';' :: _ => some g
    | '*' :: ';' :: _ =>
      if g.getLast? = some '.' then some g.dropLast else none
    | _ => none

/-- One stripped line of `JavaParser.parse_imports`. -/
def javaImportLine (lineNum : Nat) (line : Chars) : List Import :=
  match matchJavaImport line with
  | some module =>
    let items : List String :=
      if pyEndsWith ".*;" ⟨line⟩ then ["*"]
      else [⟨(splitOnChar '.' module).getLastD []⟩]
    [{ module := ⟨module⟩, items, is_relative := false,
       language := "java", line_number := some lineNum }]
  | none => []

/-- `JavaParser.parse_imports`. -/
def parseImportsJava (code : String) : List Import :=
  ((pySplit '\n' code).enum.map fun (i, line) =>
    javaImportLine (i + 1) (pyStripChars line.data)).flatten

/-! ## `PythonParser.parse_api_routes` -/

/-- `re.match(r'def\s+(\w+)\s*\(', ...)`: returns the function name. -/
def matchDefLine (l : Chars) : Option Chars :=
  (expectLit "def".data l).bind afterSpaces1 |>.bind fun r1 =>
  (classPlus isWordChar r1).bind fun (name, r2) =>
  (expectChar '(' (afterSpaces0 r2)).map fun _ => name

/-- `PythonParser._get_function_name(lines, start_idx)`: first `def` match in
the next (up to) five lines, else `"unknown"`. -/
def getFunctionName (lines : List String) (startIdx : Nat) : String :=
  match ((lines.drop startIdx).take 5).findSome?
      (fun l => matchDefLine (pyStripChars l.data)) with
  | some name => ⟨name⟩
  | none => "unknown"

/-- `re.match(r'@(?:app|bp|router|api)\.route\([\'"]([^\'"]+)[\'"](?:,\s*methods=\[([^\]]+)\])?', line)`:
returns `(path, methods-group?)`. -/
def matchFlaskRoute (l : Chars) : Option (Chars × Option Chars) :=
  (expectChar '@' l).bind fun r0 =>
  altLit ["app".data, "bp".data, "router".data, "api".data]
    (fun r1 =>
      (expectLit ".route(".data r1).bind fun r2 =>
      (quotedGroup r2).map fun (path, r3) =>
        let optGroup : Option Chars :=
          (expectChar ',' r3).bind fun r4 =>
          (expectLit "methods=[".data (afterSpaces0 r4)).bind fun r5 =>
          (classPlus (fun c => !(c = ']')) r5).bind fun (g, r6) =>
          (expectChar ']' r6).map fun _ => g
        (path, optGroup))
    r0

/-- `re.match(r'@(?:app|router)\.(get|post|put|delete|patch)\([\'"]([^\'"]+)[\'"]', line)`:
returns `(method, path)`. -/
def matchFastApiRoute (l : Chars) : Option (Chars × Chars) :=
  (expectChar '@' l).bind fun r0 =>
  altLit ["app".data, "router".data]
    (fun r1 =>
      (expectChar '.' r1).bind fun r2 =>
      ["get".data, "post".data, "put".data, "delete".data, "patch".data].findSome?
        fun m =>
          (expectLit m r2).bind fun r3 =>
          (expectChar '(' r3).bind fun r4 =>
          (quotedGroup r4).map fun (path, _) => (m, path))
    r0

/-- Routes contributed by line `i` of `PythonParser.parse_api_routes`
(both the Flask and the FastAPI pattern are tried on each stripped line). -/
def pyRoutesAtLine (lines : List String) (i : Nat) : List APIRoute :=
  let line := pyStripChars (lines.getD i "").data
  let flask : List APIRoute :=
    match matchFlaskRoute line with
    | some (path, optMethods) =>
      let methodsStr := match optMethods with
        | some g => g
        | none => "'GET'".data
      let methods := (splitOnChar ',' methodsStr).map
        (pyStripSet ['\'', '"', ' '])
      let funcName := getFunctionName lines (i + 1)
      methods.map fun m =>
        { method := pyUpper ⟨m⟩, path := ⟨path⟩, function_name := funcName,
          decorators := [⟨line⟩], language := "python",
          line_number := some (i + 1) }
    | none => []
  let fastapi : List APIRoute :=
    match matchFastApiRoute line with
    | some (m, path) =>
      [{ method := pyUpper ⟨m⟩, path := ⟨path⟩,
         function_name := getFunctionName lines (i + 1),
         decorators := [⟨line⟩], language := "python",
         line_number := some (i + 1) }]
    | none => []
  flask ++ fastapi

/-- `PythonParser.parse_api_routes`. -/
def parseApiRoutesPython (code : String) : List APIRoute :=
  let lines := pySplit '\n' code
  ((List.range lines.length).map (pyRoutesAtLine lines)).flatten

/-! ## `JavaScriptParser.parse_api_routes` (also used for TypeScript; the
records keep `language = 'javascript'` because `TypeScriptParser` does not
override this method) -/

/-- `re.match(r'(?:app|router)\.(get|post|put|delete|patch)\([\'"]([^\'"]+)[\'"]', line)`. -/
def matchExpressRoute (l : Chars) : Option (Chars × Chars) :=
  altLit ["app".data, "router".data]
    (fun r1 =>
      (expectChar '.' r1).bind fun r2 =>
      (["get".data, "post".data, "put".data, "delete".data, "patch".data].findSome?
        fun m =>
          (expectLit m r2).bind fun r3 =>
          (expectChar '(' r3).bind fun r4 =>
          (quotedGroup r4).map fun (path, _) => (m, path)))
    l

/-- `JavaScriptParser.parse_api_routes`. -/
def parseApiRoutesJS (code : String) : List APIRoute :=
  ((pySplit '\n' code).enum.map fun (i, line) =>
    match matchExpressRoute (pyStripChars line.data) with
    | some (m, path) =>
      [{ method := pyUpper ⟨m⟩, path := ⟨path⟩, function_name := "inline",
         decorators := [], language := "javascript",
         line_number := some (i + 1) }]
    | none => []).flatten

/-! ## `JavaParser.parse_api_routes` -/

/-- `re.match(r'@(Get|Post|Put|Delete|Patch)Mapping\([\'"]([^\'"]+)[\'"]', line)`. -/
def matchSpringMapping (l : Chars) : Option (Chars × Chars) :=
  (expectChar '@' l).bind fun r0 =>
  (["Get".data, "Post".data, "Put".data, "Delete".data, "Patch".data].findSome?
    fun m =>
      (expectLit m r0).bind fun r1 =>
      (expectLit "Mapping(".data r1).bind fun r2 =>
      (quotedGroup r2).map fun (path, _) => (m, path))

/-- `re.match(r'@RequestMapping\(.*value\s*=\s*[\'"]([^\'"]+)[\'"].*method\s*=\s*RequestMethod\.(\w+)', line)`.
The two greedy `.*` are modelled by trying the split positions right-to-left
(longest skip first), as the backtracking regex engine does. -/
def matchSpringRequestMapping (l : Chars) : Option (Chars × Chars) :=
  (expectLit "@RequestMapping(".data l).bind fun r0 =>
  (r0.tails.reverse.findSome? fun s1 =>
    (expectLit "value".data s1).bind fun a1 =>
    (expectChar '=' (afterSpaces0 a1)).bind fun a2 =>
    (quotedGroup (afterSpaces0 a2)).bind fun (path, a3) =>
    (a3.tails.reverse.findSome? fun s2 =>
      (expectLit "method".data s2).bind fun b1 =>
      (expectChar '=' (afterSpaces0 b1)).bind fun b2 =>
      (expectLit "RequestMethod.".data (afterSpaces0 b2)).bind fun b3 =>
      (classPlus isWordChar b3).map fun (m, _) => m).map fun m => (path, m))

/-- Routes contributed by line `i` of `JavaParser.parse_api_routes`
(both Spring patterns tried on each stripped line). -/
def javaRoutesAtLine (i : Nat) (line : Chars) : List APIRoute :=
  let ann : List APIRoute :=
    match matchSpringMapping line with
    | some (m, path) =>
      [{ method := pyUpper ⟨m⟩, path := ⟨path⟩, function_name := "unknown",
         decorators := [⟨line⟩], language := "java",
         line_number := some (i + 1) }]
    | none => []
  let req : List APIRoute :=
    match matchSpringRequestMapping line with
    | some (path, m) =>
      [{ method := pyUpper ⟨m⟩, path := ⟨path⟩, function_name := "unknown",
         decorators := [⟨line⟩], language := "java",
         line_number := some (i + 1) }]
    | none => []
  ann ++ req

/-- `JavaParser.parse_api_routes`. -/
def parseApiRoutesJava (code : String) : List APIRoute :=
  ((pySplit '\n' code).enum.map fun (i, line) =>
    javaRoutesAtLine i (pyStripChars line.data)).flatten

/-! ## `PythonParser.parse_database_models` -/

/-- `re.match(r'class\s+(\w+)\((?:db\.)?Model\):', line)`: the model name. -/
def matchPyClassModel (l : Chars) : Option Chars :=
  (expectLit "class".data l).bind afterSpaces1 |>.bind fun r1 =>
  (classPlus isWordChar r1).bind fun (name, r2) =>
  (expectChar '(' r2).bind fun r3 =>
  ((expectLit "db.".data r3).bind (expectLit "Model):".data)).orElse
      (fun _ => expectLit "Model):".data r3) |>.map fun _ => name

/-- `re.match(r'__tablename__\s*=\s*[\'"](\w+)[\'"]', field_line)`. -/
def matchTablename (l : Chars) : Option Chars :=
  (expectLit "__tablename__".data l).bind fun r1 =>
  (expectChar '=' (afterSpaces0 r1)).bind fun r2 =>
    match afterSpaces0 r2 with
    | c :: r3 =>
      if isQuote c then
        (classPlus isWordChar r3).bind fun (name, r4) =>
          match r4 with
          | d :: _ => if isQuote d then some name else none
          | [] => none
      else none
    | [] => none

/-- `re.match(r'(\w+)\s*=\s*db\.Column\(([\w\.,\s]+)', field_line)`:
returns `(field-name, group 2)`. -/
def matchColumnField (l : Chars) : Option (Chars × Chars) :=
  (classPlus isWordChar l).bind fun (name, r1) =>
  (expectChar '=' (afterSpaces0 r1)).bind fun r2 =>
  (expectLit "db.Column(".data (afterSpaces0 r2)).bind fun r3 =>
  (classPlus pyImportCls r3).map fun (g, _) => (name, g)

/-- The inner field-scanning loop of `PythonParser.parse_database_models`.
NOTE (faithful to the source): the "end of class" guard tests the *stripped*
line for a leading space/tab, which is always false, so any nonempty stripped
line that is not a comment and not a `class ` line breaks the scan before any
field or `__tablename__` can be recorded. -/
def scanModelBody : List String → Option String → List ModelField →
    Option String × List ModelField
  | [], tn, fs => (tn, fs)
  | l :: rest, tn, fs =>
    let fl := pyStripChars l.data
    if !fl.isEmpty
        && !(pyStartsWith " " ⟨fl⟩ || pyStartsWith "\t" ⟨fl⟩ || pyStartsWith "#" ⟨fl⟩)
        && !pyStartsWith "class " ⟨fl⟩ then
      (tn, fs)
    else
      let tn' := match matchTablename fl with
        | some t => some (⟨t⟩ : String)
        | none => tn
      let fs' := match matchColumnField fl with
        | some (n, g) =>
          fs ++ [{ name := ⟨n⟩, type := ⟨pyStripChars (g.takeWhile (fun c => !(c = ',')))⟩ }]
        | none => fs
      scanModelBody rest tn' fs'

/-- `PythonParser.parse_database_models`. -/
def parseDatabaseModelsPython (code : String) : List DatabaseModel :=
  let lines := pySplit '\n' code
  ((List.range lines.length).map fun i =>
    match matchPyClassModel (pyStripChars (lines.getD i "").data) with
    | some name =>
      -- `for j in range(i+1, min(i+100, len(lines)))`
      let body := (lines.drop (i + 1)).take 99
      let (tn, fields) := scanModelBody body none []
      [{ name := ⟨name⟩, fields, table_name := tn,
         language := "python", line_number := some (i + 1) }]
    | none => []).flatten

/-! ## `CodeParser` dispatch -/

/-- `CodeParser.detect_language`: first matching extension of the ordered
extension table. -/
def detect_language (file_path : String) : Option String :=
  [(".py", "python"), (".js", "javascript"), (".jsx", "javascript"),
   (".ts", "typescript"), (".tsx", "typescript"), (".java", "java")].findSome?
    fun (ext, lang) => if pyEndsWith ext file_path then some lang else none

/-- `CodeParser.parse_imports`: dispatch on the registered language table;
unknown language yields `[]`. -/
def parse_imports (code : String) (language : String) : List Import :=
  if language = "python" then parseImportsPython code
  else if language = "javascript" then parseImportsJS "javascript" code
  else if language = "typescript" then parseImportsJS "typescript" code
  else if language = "java" then parseImportsJava code
  else []

/-- `CodeParser.parse_api_routes`. -/
def parse_api_routes (code : String) (language : String) : List APIRoute :=
  if language = "python" then parseApiRoutesPython code
  else if language = "javascript" then parseApiRoutesJS code
  else if language = "typescript" then parseApiRoutesJS code
  else if language = "java" then parseApiRoutesJava code
  else []

/-- `CodeParser.parse_database_models` (the JavaScript/TypeScript and Java
parsers return `[]` unconditionally). -/
def parse_database_models (code : String) (language : String) : List DatabaseModel :=
  if language = "python" then parseDatabaseModelsPython code
  else if language = "javascript" then []
  else if language = "typescript" then []
  else if language = "java" then []
  else []

/-! ## `services/architectural_analyzer.py`

The per-file change records produced by `_parse_diff_files` (from either a
raw unified diff or the hosted-VCS file list) are the common input shape of
all the analyses; we quantify over them directly.  The Python `dict`
`file_changes` is modelled as an association list in insertion order. -/

/-- One value of the `file_changes` dict built by
`ArchitecturalAnalyzer._parse_diff_files`. -/
structure FileChange where
  filename : String
  status : String
  additions : Nat
  deletions : Nat
  patch : String
  language : Option String
deriving DecidableEq, Repr

abbrev FileChanges := List (String × FileChange)

/-- The `+`-prefixed (non-`+++`) lines of a patch, with the marker stripped. -/
def patchAddedLines (patch : String) : List String :=
  ((pySplit '\n' patch).filter fun l =>
    pyStartsWith "+" l && !pyStartsWith "+++" l).map fun l => ⟨l.data.drop 1⟩

/-- The `-`-prefixed (non-`---`) lines of a patch, with the marker stripped. -/
def patchRemovedLines (patch : String) : List String :=
  ((pySplit '\n' patch).filter fun l =>
    pyStartsWith "-" l && !pyStartsWith "---" l).map fun l => ⟨l.data.drop 1⟩

def addedCodeOf (ch : FileChange) : String := pyJoin "\n" (patchAddedLines ch.patch)

def removedCodeOf (ch : FileChange) : String := pyJoin "\n" (patchRemovedLines ch.patch)

/-- Python `set.add`: append if absent (iteration order is irrelevant to the
code, which only takes membership, difference, `len` and `sorted`). -/
def sinsert (l : List String) (x : String) : List String :=
  if x ∈ l then l else l ++ [x]

def sinsertAll (l : List String) (xs : List String) : List String :=
  xs.foldl sinsert l

/-- Python `sorted` on strings (lexicographic). -/
def pySorted (l : List String) : List String := l.mergeSort fun a b => a ≤ b

/-- `_analyze_dependencies` return value. -/
structure DependencyReport where
  added : List String
  removed : List String
  by_file : List (String × List String × List String)
  external_dependencies : List String
deriving DecidableEq, Repr

/-- The accumulation loop of `_analyze_dependencies`: the `added_imports` and
`removed_imports` sets plus the `by_file` dict, in iteration order. -/
def dependencyImportSets (fcs : FileChanges) :
    List String × List String × List (String × List String × List String) :=
  fcs.foldl
    (fun acc (filename, change) =>
    match change.language with
    | none => acc
    | some language =>
      if language = "" then acc -- `if not language: continue`
      else if change.patch = "" then acc -- `if not patch: continue`
      else
        let file_added := parse_imports (addedCodeOf change) language
        let file_removed := parse_imports (removedCodeOf change) language
        (sinsertAll acc.1 (file_added.map (·.module)),
         sinsertAll acc.2.1 (file_removed.map (·.module)),
         acc.2.2 ++ [(filename, file_added.map (·.module), file_removed.map (·.module))]))
    ([], [], [])

/-- `_identify_external_deps`: modules not matching the internal-prefix table,
sorted. -/
def identify_external_deps (modules : List String) : List String :=
  pySorted (modules.filter fun m =>
    !([".", "/", "models", "services", "routes", "utils", "config"].any
      fun p => pyStartsWith p m))

/-- `ArchitecturalAnalyzer._analyze_dependencies`. -/
def analyze_dependencies (fcs : FileChanges) : DependencyReport :=
  let sets := dependencyImportSets fcs
  let added_imports := sets.1
  let removed_imports := sets.2.1
  let truly_added := added_imports.filter fun m => m ∉ removed_imports
  let truly_removed := removed_imports.filter fun m => m ∉ added_imports
  { added := pySorted truly_added,
    removed := pySorted truly_removed,
    by_file := sets.2.2,
    external_dependencies := identify_external_deps truly_added }

/-- An endpoint dict of `_analyze_api_changes`. -/
structure Endpoint where
  method : String
  path : String
  file : String
  function : String
deriving DecidableEq, Repr

def mkEndpoint (filename : String) (route : APIRoute) : Endpoint :=
  { method := route.method, path := route.path, file := filename,
    function := route.function_name }

/-- `_analyze_api_changes` return value. -/
structure APIReport where
  new_endpoints : List Endpoint
  removed_endpoints : List Endpoint
  modified_endpoints : List Endpoint
  breaking_changes : List String
  summary : Nat × Nat × Nat
deriving DecidableEq, Repr

def apiLanguages : List String := ["python", "javascript", "typescript", "java"]

/-- One iteration of the `_analyze_api_changes` loop. -/
def apiStep (acc : List Endpoint × List Endpoint) (p : String × FileChange) :
    List Endpoint × List Endpoint :=
  match p.2.language with
  | none => acc -- `if not language or language not in [...]: continue`
  | some language =>
    if language ∉ apiLanguages then acc
    else if p.2.patch = "" then acc -- `if not patch: continue`
    else
      (acc.1 ++ (parse_api_routes (addedCodeOf p.2) language).map (mkEndpoint p.1),
       acc.2 ++ (parse_api_routes (removedCodeOf p.2) language).map (mkEndpoint p.1))

/-- `ArchitecturalAnalyzer._analyze_api_changes`. -/
def analyze_api_changes (fcs : FileChanges) : APIReport :=
  let acc := fcs.foldl apiStep ([], [])
  let new_endpoints := acc.1
  let removed_endpoints := acc.2
  let breaking_changes :=
    if removed_endpoints ≠ [] then
      ["Removed " ++ toString removed_endpoints.length
        ++ " endpoint(s) - potential breaking change"]
    else []
  { new_endpoints, removed_endpoints, modified_endpoints := [],
    breaking_changes,
    summary := (new_endpoints.length, removed_endpoints.length, 0) }

/-- A model dict of `_analyze_schema_changes`. -/
structure ModelRef where
  name : String
  table : Option String
  file : String
deriving DecidableEq, Repr

/-- `_analyze_schema_changes` return value. -/
structure SchemaReport where
  migration_files : List String
  new_models : List ModelRef
  modified_models : List ModelRef
  removed_models : List ModelRef
  breaking_changes : List String
  summary : Nat × Nat × Nat
deriving DecidableEq, Repr

/-- `ArchitecturalAnalyzer._is_migration_file`. -/
def is_migration_file (filename : String) : Bool :=
  ["/migrations/", "/migrate/", "/alembic/", "/db/migrate/",
   "migrations.py", "migrate.py"].any fun p => pyIn p filename

/-- Accumulator of the `_analyze_schema_changes` loop. -/
structure SchemaAcc where
  migration_files : List String
  new_models : List ModelRef
  removed_models : List ModelRef
  breaking_changes : List String

/-- One iteration of the `_analyze_schema_changes` loop. -/
def schemaStep (acc : SchemaAcc) (p : String × FileChange) : SchemaAcc :=
  let (filename, change) := p
  -- migration detection and destructive-keyword flagging
  let acc :=
    if is_migration_file filename then
      { acc with
        migration_files := acc.migration_files ++ [filename],
        breaking_changes := acc.breaking_changes ++
          (if ["drop table", "drop column", "alter column"].any
              (fun k => pyIn k (pyLower change.patch)) then
            ["Migration " ++ filename ++ " contains potentially breaking schema changes"]
          else []) }
    else acc
  -- model-file diffing
  if change.language = some "python" && pyIn "/models/" filename then
    let added_models := parse_database_models (addedCodeOf change) "python"
    let removed_models_list := parse_database_models (removedCodeOf change) "python"
    { acc with
      new_models := acc.new_models ++ added_models.map
        (fun m => { name := m.name, table := m.table_name, file := filename }),
      removed_models := acc.removed_models ++ removed_models_list.map
        (fun m => { name := m.name, table := m.table_name, file := filename }) }
  else acc

/-- `ArchitecturalAnalyzer._analyze_schema_changes`. -/
def analyze_schema_changes (fcs : FileChanges) : SchemaReport :=
  let acc := fcs.foldl schemaStep ⟨[], [], [], []⟩
  { migration_files := acc.migration_files,
    new_models := acc.new_models,
    modified_models := [],
    removed_models := acc.removed_models,
    breaking_changes := acc.breaking_changes,
    summary := (acc.migration_files.length, acc.new_models.length,
      acc.removed_models.length) }

/-- `ArchitecturalAnalyzer._extract_component_name`. -/
def extract_component_name (filepath : String) : String :=
  if !filepath.data.contains '/' then "root"
  else
    let parts := pySplit '/' filepath
    if 2 ≤ parts.length
        && parts.getD 0 "" ∈ ["services", "models", "routes", "controllers", "views"] then
      if 3 ≤ parts.length && parts.getD 0 "" = "routes" then
        parts.getD 0 "" ++ "/" ++ parts.getD 1 ""
      else parts.getD 0 ""
    else parts.getD 0 ""

/-- `ArchitecturalAnalyzer._classify_component_type`: first matching entry of
the ordered keyword table, else `'module'`. -/
def classify_component_type (component_name : String) : String :=
  match [("models", "data"), ("services", "business_logic"), ("routes", "api"),
      ("controllers", "api"), ("views", "presentation"), ("utils", "utility"),
      ("config", "configuration"), ("tests", "testing")].findSome?
      (fun (key, comp_type) =>
        if pyIn key (pyLower component_name) then some comp_type else none) with
  | some t => t
  | none => "module"

/-- A component dict of `_identify_components`. -/
structure Component where
  name : String
  files : List String
  type : String
  file_count : Nat
deriving DecidableEq, Repr

/-- `defaultdict(list)` grouping in first-occurrence key order. -/
def addToGroup : List (String × List String) → String → String →
    List (String × List String)
  | [], k, v => [(k, [v])]
  | (k', vs) :: rest, k, v =>
    if k' = k then (k', vs ++ [v]) :: rest
    else (k', vs) :: addToGroup rest k v

/-- `ArchitecturalAnalyzer._identify_components`. -/
def identify_components (fcs : FileChanges) : List (String × Component) :=
  let component_files := fcs.foldl
    (fun g (filename, _) => addToGroup g (extract_component_name filename) filename) []
  component_files.map fun (comp_name, files) =>
    (comp_name,
     { name := comp_name, files, type := classify_component_type comp_name,
       file_count := files.length })

/-- `_assess_impact` return value. -/
structure Impact where
  scope : String
  risk : String
  complexity : String
  files_changed : Nat
  lines_added : Nat
  lines_removed : Nat
  components_affected : List String
  risk_factors : List String
deriving DecidableEq, Repr

/-- The `components_affected` set of `_assess_impact` (insertion order;
only its cardinality and its sorted listing are consumed). -/
def componentNamesSet (fcs : FileChanges) : List String :=
  fcs.foldl (fun s (filename, _) => sinsert s (extract_component_name filename)) []

/-- The `risk_factors` accumulation of `_assess_impact`. -/
def riskFactorsOf (dependency_changes : DependencyReport) (api_changes : APIReport)
    (schema_changes : SchemaReport) : List String :=
  (if api_changes.breaking_changes ≠ [] then api_changes.breaking_changes else []) ++
  (if schema_changes.breaking_changes ≠ [] then schema_changes.breaking_changes else []) ++
  (if dependency_changes.removed ≠ [] then
    ["Removed " ++ toString dependency_changes.removed.length ++ " dependencies"]
  else [])

/-- The scope classification of `_assess_impact`
(`if num_components <= 1 and files_changed <= 3: ... elif ... else ...`). -/
def scopeOf (num_components files_changed : Nat) : String :=
  if num_components ≤ 1 ∧ files_changed ≤ 3 then "low"
  else if num_components ≤ 3 ∧ files_changed ≤ 10 then "medium"
  else "high"

/-- The risk classification of `_assess_impact`
(`if len(risk_factors) >= 3: 'high' elif >= 1: 'medium' else 'low'`). -/
def riskOf (num_risk_factors : Nat) : String :=
  if 3 ≤ num_risk_factors then "high"
  else if 1 ≤ num_risk_factors then "medium"
  else "low"

/-- The complexity classification of `_assess_impact`
(`if total_lines > 500 or files_changed > 15: 'high' elif > 100 or > 5: ...`). -/
def complexityOf (total_lines files_changed : Nat) : String :=
  if 500 < total_lines ∨ 15 < files_changed then "high"
  else if 100 < total_lines ∨ 5 < files_changed then "medium"
  else "low"

def linesAddedOf (fcs : FileChanges) : Nat := (fcs.map fun p => p.2.additions).sum

def linesRemovedOf (fcs : FileChanges) : Nat := (fcs.map fun p => p.2.deletions).sum

/-- `ArchitecturalAnalyzer._assess_impact`. -/
def assess_impact (fcs : FileChanges) (dependency_changes : DependencyReport)
    (api_changes : APIReport) (schema_changes : SchemaReport) : Impact :=
  let files_changed := fcs.length
  let lines_added := linesAddedOf fcs
  let lines_removed := linesRemovedOf fcs
  let total_lines := lines_added + lines_removed
  let components_affected := componentNamesSet fcs
  let num_components := components_affected.length
  let risk_factors := riskFactorsOf dependency_changes api_changes schema_changes
  { scope := scopeOf num_components files_changed,
    risk := riskOf risk_factors.length,
    complexity := complexityOf total_lines files_changed,
    files_changed, lines_added, lines_removed,
    components_affected := pySorted components_affected, risk_factors }

/-- `analyze_pr_diff` return value (from the per-file change records on). -/
structure AnalysisResult where
  dependencies : DependencyReport
  api_changes : APIReport
  schema_changes : SchemaReport
  components : List (String × Component)
  impact : Impact
  files_changed : FileChanges
deriving Repr

/-- `ArchitecturalAnalyzer.analyze_pr_diff`, from the normalized per-file
change records (`_parse_diff_files` output) on. -/
def analyzeFileChanges (fcs : FileChanges) : AnalysisResult :=
  let dependency_changes := analyze_dependencies fcs
  let api_changes := analyze_api_changes fcs
  let schema_changes := analyze_schema_changes fcs
  { dependencies := dependency_changes,
    api_changes,
    schema_changes,
    components := identify_components fcs,
    impact := assess_impact fcs dependency_changes api_changes schema_changes,
    files_changed := fcs }

/-! ## `services/diagram_generator.py` -/

/-- `display_name = dep.split('/')[-1] if '/' in dep else dep`. -/
def displayName (dep : String) : String :=
  if dep.data.contains '/' then ⟨(splitOnChar '/' dep.data).getLastD []⟩ else dep

/-- `DiagramGenerator.generate_dependency_graph`. -/
def generate_dependency_graph (dependencies : DependencyReport) : String :=
  let added := dependencies.added
  let removed := dependencies.removed
  let external := dependencies.external_dependencies -- read but unused in source
  if added = [] ∧ removed = [] then "" -- `if not (added or removed)`
  else
    let l0 := ["graph LR", "    Project[\"Your Project\"]"]
    let addLines := ((added.take 8).enum.map fun (i, dep) =>
      let dep_id := "ADD" ++ toString i
      ["    " ++ dep_id ++ "[\"" ++ displayName dep ++ "\"]",
       "    Project -->|added| " ++ dep_id,
       "    style " ++ dep_id ++ " fill:#c8e6c9"]).flatten
    let remLines := ((removed.take 8).enum.map fun (i, dep) =>
      let dep_id := "REM" ++ toString i
      ["    " ++ dep_id ++ "[\"" ++ displayName dep ++ "\"]",
       "    Project -.->|removed| " ++ dep_id,
       "    style " ++ dep_id ++ " fill:#ffcdd2"]).flatten
    pyJoin "\n" (l0 ++ addLines ++ remLines)

/-- `DiagramGenerator.generate_component_diagram`. -/
def generate_component_diagram (components : List (String × Component))
    (dependencies : DependencyReport) : String :=
  if components = [] then ""
  else
    let comp_ids : List (String × String) :=
      components.enum.map fun (i, (comp_name, _)) => (comp_name, "C" ++ toString i)
    let nodeLines := (components.enum.map fun (i, (comp_name, comp_data)) =>
      let comp_id := "C" ++ toString i
      ["    " ++ comp_id ++ "[\"" ++ comp_name ++ "<br/>"
          ++ toString comp_data.file_count ++ " files\"]"] ++
      (if comp_data.type = "api" then ["    style " ++ comp_id ++ " fill:#e1f5ff"]
       else if comp_data.type = "data" then ["    style " ++ comp_id ++ " fill:#fff3e0"]
       else if comp_data.type = "business_logic" then
        ["    style " ++ comp_id ++ " fill:#f3e5f5"]
       else [])).flatten
    let edgeLines := ((dependencies.added.take 10).map fun dep =>
      match comp_ids.findSome? (fun (comp_name, comp_id) =>
          if pyIn dep comp_name || pyIn comp_name dep then some comp_id else none) with
      | some comp_id =>
        match comp_ids.head? with
        | some (_, source_id) => ["    " ++ source_id ++ " -->|new| " ++ comp_id]
        | none => []
      | none => []).flatten
    pyJoin "\n" (["graph TD"] ++ nodeLines ++ edgeLines)

/-- The method-grouping dict of `generate_api_surface_diagram`
(insertion-ordered; new/removed endpoint lists per HTTP method). -/
def addMethodEndpoint (isNew : Bool) (groups : List (String × List Endpoint × List Endpoint))
    (ep : Endpoint) : List (String × List Endpoint × List Endpoint) :=
  match groups with
  | [] => if isNew then [(ep.method, [ep], [])] else [(ep.method, [], [ep])]
  | (m, news, rems) :: rest =>
    if m = ep.method then
      if isNew then (m, news ++ [ep], rems) :: rest else (m, news, rems ++ [ep]) :: rest
    else (m, news, rems) :: addMethodEndpoint isNew rest ep

/-- `DiagramGenerator.generate_api_surface_diagram`. -/
def generate_api_surface_diagram (api_changes : APIReport) : String :=
  let new_endpoints := api_changes.new_endpoints
  let removed_endpoints := api_changes.removed_endpoints
  if new_endpoints = [] ∧ removed_endpoints = [] then ""
  else
    let methods := (removed_endpoints.take 10).foldl (addMethodEndpoint false)
      ((new_endpoints.take 10).foldl (addMethodEndpoint true) [])
    let groupLines := (methods.enum.map fun (i, (method, news, rems)) =>
      let method_id := "M" ++ toString i
      ["    " ++ method_id ++ "[\"" ++ method ++ "\"]",
       "    API --> " ++ method_id] ++
      ((news.take 5).enum.map fun (j, endpoint) =>
        let endpoint_id := method_id ++ "_NEW" ++ toString j
        ["    " ++ endpoint_id ++ "[\"" ++ endpoint.path ++ "\"]",
         "    " ++ method_id ++ " -->|new| " ++ endpoint_id,
         "    style " ++ endpoint_id ++ " fill:#c8e6c9"]).flatten ++
      ((rems.take 5).enum.map fun (j, endpoint) =>
        let endpoint_id := method_id ++ "_REM" ++ toString j
        ["    " ++ endpoint_id ++ "[\"" ++ endpoint.path ++ "\"]",
         "    " ++ method_id ++ " -.->|removed| " ++ endpoint_id,
         "    style " ++ endpoint_id ++ " fill:#ffcdd2"]).flatten).flatten
    pyJoin "\n" (["graph TD", "    API[\"API Surface\"]"] ++ groupLines)

/-- `DiagramGenerator.generate_dataflow_diagram`. -/
def generate_dataflow_diagram (components : List (String × Component))
    (api_changes : APIReport) : String :=
  let new_endpoints := api_changes.new_endpoints
  if new_endpoints = [] then ""
  else
    let component_names := (new_endpoints.take 5).foldl
      (fun s endpoint =>
        if endpoint.file.data.contains '/' then
          sinsert s ⟨(splitOnChar '/' endpoint.file.data).headD []⟩
        else s) []
    let participantLines := (pySorted component_names).map fun comp =>
      "    participant " ++ pyCapitalize comp
    let seqLines := ((new_endpoints.take 5).enum.map fun (i, endpoint) =>
      let component :=
        if endpoint.file.data.contains '/' then
          pyCapitalize ⟨(splitOnChar '/' endpoint.file.data).headD []⟩
        else "Service"
      ["    Client->>+API: " ++ endpoint.method ++ " " ++ endpoint.path,
       "    API->>+" ++ component ++ ": Process request",
       "    " ++ component ++ "-->>-API: Response",
       "    API-->>-Client: Result"] ++
      (if i < new_endpoints.length - 1 then [""] else [])).flatten
    pyJoin "\n" (["sequenceDiagram", "    participant Client", "    participant API"]
      ++ participantLines ++ seqLines)

/-- `DiagramGenerator.generate_schema_diagram`.
NOTE: `model.get('table', default)` finds the always-present `'table'` key, so
a `None` table renders as the string `"None"`; the `model_name.lower()`
default is dead code. -/
def generate_schema_diagram (schema_changes : SchemaReport) : String :=
  let new_models := schema_changes.new_models
  let removed_models := schema_changes.removed_models
  if new_models = [] ∧ removed_models = [] then ""
  else
    let render (tag arrow fill : String) (i : Nat) (model : ModelRef) : List String :=
      let model_id := tag ++ toString i
      let table_name := match model.table with | some t => t | none => "None"
      ["    " ++ model_id ++ "[\"" ++ model.name ++ "<br/>" ++ table_name ++ "\"]",
       "    DB " ++ arrow ++ " " ++ model_id,
       "    style " ++ model_id ++ " fill:" ++ fill]
    let newLines := ((new_models.take 8).enum.map fun (i, m) =>
      render "NEW" "-->|new|" "#c8e6c9" i m).flatten
    let remLines := ((removed_models.take 8).enum.map fun (i, m) =>
      render "REM" "-.->|removed|" "#ffcdd2" i m).flatten
    pyJoin "\n" (["graph TD", "    DB[(Database)]"] ++ newLines ++ remLines)

/-- `DiagramGenerator._get_level_color`. -/
def get_level_color (level : String) : String :=
  if level = "low" then "#c8e6c9"
  else if level = "medium" then "#fff9c4"
  else if level = "high" then "#ffcdd2"
  else "#e0e0e0"

/-- `DiagramGenerator.generate_impact_summary_diagram`. -/
def generate_impact_summary_diagram (impact : Impact) : String :=
  let node (label : String) (value : String) : List String :=
    ["    " ++ label ++ "[\"" ++ pyUpper value ++ "<br/>" ++ label ++ "\"]",
     "    Impact --> " ++ label,
     "    style " ++ label ++ " fill:" ++ get_level_color value]
  pyJoin "\n" (["graph TB", "    Impact[\"Impact Assessment\"]"]
    ++ node "Scope" impact.scope ++ node "Risk" impact.risk
    ++ node "Complexity" impact.complexity)

/-- The diagram dict of `DiagramGenerator.generate_all_diagrams`
(`none` = key absent). -/
structure Diagrams where
  component : Option String := none
  dependency : Option String := none
  api_surface : Option String := none
  dataflow : Option String := none
  schema : Option String := none
  impact : Option String := none
deriving DecidableEq, Repr

/-- `DiagramGenerator.generate_all_diagrams`.  The `dependencies`,
`api_changes`, `schema_changes` and `impact` sub-dicts of an
`analyze_pr_diff` result are never-empty dicts, hence always truthy; only
`components` can be empty. -/
def generate_all_diagrams (analysis_results : AnalysisResult) : Diagrams :=
  let components := analysis_results.components
  let dependencies := analysis_results.dependencies
  let api_diagram := generate_api_surface_diagram analysis_results.api_changes
  let dataflow := generate_dataflow_diagram components analysis_results.api_changes
  let schema_diagram := generate_schema_diagram analysis_results.schema_changes
  { component :=
      if components ≠ [] then some (generate_component_diagram components dependencies)
      else none,
    dependency := some (generate_dependency_graph dependencies),
    api_surface := if api_diagram ≠ "" then some api_diagram else none,
    dataflow :=
      if components ≠ [] then (if dataflow ≠ "" then some dataflow else none)
      else none,
    schema := if schema_diagram ≠ "" then some schema_diagram else none,
    impact := some (generate_impact_summary_diagram analysis_results.impact) }

/-! ## `services/review_orchestrator.py`

The workflow state (`ReviewState` TypedDict) is modelled as a record; the
free-form JSON-ish dicts coming from the external analysis service are
modelled by the `PyVal` value type.  External effects (the analysis-service
calls, the architectural-analyzer invocation, the database session, and the
LangGraph `graph.stream` event source) are parameters of the node functions:
a Python call that may raise is an `Except String`-valued input, exactly
covering the `try/except` blocks of the source. -/

/-- Python values held in the untyped parts of the workflow state. -/
inductive PyVal where
  | null : PyVal
  | boolean : Bool → PyVal
  | str : String → PyVal
  | num : Int → PyVal
  | dict : List (String × PyVal) → PyVal
  | lst : List PyVal → PyVal

/-- Python truthiness of a `PyVal`. -/
def PyVal.truthy : PyVal → Bool
  | .null => false
  | .boolean b => b
  | .str s => s ≠ ""
  | .num n => n ≠ 0
  | .dict es => !es.isEmpty
  | .lst xs => !xs.isEmpty

/-- `d.get(k)` on a dict value: `None` when missing or not a dict. -/
def PyVal.get (v : PyVal) (k : String) : PyVal :=
  match v with
  | .dict es =>
    match es.find? (fun e => e.1 = k) with
    | some e => e.2
    | none => .null
  | _ => .null

/-- `d.get(k, {})`. -/
def PyVal.getDict (v : PyVal) (k : String) : PyVal :=
  match v with
  | .dict es =>
    match es.find? (fun e => e.1 = k) with
    | some e => e.2
    | none => .dict []
  | _ => .dict []

/-- A progress-event dict
`{"step": ..., "description": ..., "progress": ..., "status": ...}`. -/
structure ProgressEvent where
  step : String
  description : String
  progress : Nat
  status : String
deriving DecidableEq, Repr

/-- The `ReviewState` TypedDict.  `progress_events = none` models the key
being absent (the TypedDict is not enforced at runtime and several nodes
test for the key).  `errors` is modelled as always-present (every driver
seeds it with `[]`). -/
structure ReviewState where
  submission_id : Nat
  challenge_md : String := ""
  diff_content : String := ""
  rubric : Option PyVal := none
  pr_metadata : Option PyVal := none
  pr_files : Option (List PyVal) := none
  approach_detection : Option PyVal := none
  architecture_basic : Option PyVal := none
  universal_eval : Option PyVal := none
  approach_eval : Option PyVal := none
  tests_eval : Option PyVal := none
  security_analysis : Option PyVal := none
  alternatives : Option PyVal := none
  arch_components : Option (List (String × Component)) := none
  arch_dependencies : Option DependencyReport := none
  arch_api_changes : Option APIReport := none
  arch_schema_changes : Option SchemaReport := none
  arch_impact : Option Impact := none
  arch_diagrams : Option Diagrams := none
  progress_events : Option (List ProgressEvent) := none
  final_content : String := ""
  errors : List String := []
  analysis_path : String := ""

/-- Truthiness of an optional state entry (`bool(state.get(k))`). -/
def optTruthy : Option PyVal → Bool
  | none => false
  | some v => v.truthy

/-- `initialize_review` node. -/
def initialize_review (state : ReviewState) : ReviewState :=
  -- state['errors'] = state.get('errors', [])   (identity in this model)
  let state := { state with analysis_path := "enhanced" }
  let has_pr_metadata := optTruthy state.pr_metadata
  let has_rubric := optTruthy state.rubric -- computed but unused in source
  if !has_pr_metadata then { state with analysis_path := "simple" } else state

/-- The two `Config` flags read by `route_analysis_type`. -/
structure ConfigFlags where
  arch_analysis_enabled : Bool
  arch_skip_small_prs : Bool
deriving DecidableEq, Repr

/-- `route_analysis_type` node. -/
def route_analysis_type (cfg : ConfigFlags) (state : ReviewState) : ReviewState :=
  if !cfg.arch_analysis_enabled then { state with analysis_path := "simple" }
  else if cfg.arch_skip_small_prs then
    let pr_files := state.pr_files.getD []
    if !pr_files.isEmpty && pr_files.length < 5 then
      { state with analysis_path := "simple" }
    else state
  else state

/-- `route_decision` conditional-edge function. -/
def route_decision (state : ReviewState) : String := state.analysis_path

/-- The sub-progress events appended by `sub_progress_callback` inside
`run_basic_review` are driven by the external service; the callback's
`(step, description, sub_progress_pct)` arguments are an input here.  The
float arithmetic `int(8 + pct / 100.0 * 50)` is modelled later with the
exact IEEE semantics (`pySubProgressInt`); forward declaration here keeps
the node definition self-contained. -/
def mkSubEventWith (progressOf : Nat → Nat) (e : String × String × Nat) : ProgressEvent :=
  { step := e.1, description := e.2.1, progress := progressOf e.2.2, status := "running" }

/-- `run_basic_review` node.  `svc` is the outcome of
`AgenticReviewService.run_full_review` (its returned dict, or the message of
the exception it raised); `subProgress` lists the callback invocations the
service performed before returning/raising; `progressOf` is the
overall-progress arithmetic of `sub_progress_callback`. -/
def run_basic_review (svc : Except String PyVal)
    (subProgress : List (String × String × Nat)) (progressOf : Nat → Nat)
    (state : ReviewState) : ReviewState :=
  -- `if 'progress_events' not in state: state['progress_events'] = []`
  let state :=
    if state.progress_events = none then { state with progress_events := some [] }
    else state
  if !optTruthy state.rubric then
    { state with
      final_content := "No rubric available for detailed review.",
      analysis_path := "simple" }
  else
    -- callback appends happen while the service runs, before its outcome
    let state := { state with
      progress_events :=
        some ((state.progress_events.getD []) ++ subProgress.map (mkSubEventWith progressOf)) }
    match svc with
    | .error e =>
      { state with errors := state.errors ++ ["Basic review error: " ++ e] }
    | .ok result =>
      let evaluation := result.getDict "evaluation"
      { state with
        approach_detection := some (evaluation.getDict "approach_detection"),
        architecture_basic := some (evaluation.getDict "architecture"),
        universal_eval := some (evaluation.getDict "universal_criteria"),
        approach_eval := some (evaluation.getDict "approach_criteria"),
        tests_eval := some (evaluation.getDict "tests"),
        security_analysis := some (evaluation.getDict "security"),
        alternatives := some (result.getDict "alternatives") }

/-- `check_for_arch_analysis` conditional-edge function. -/
def check_for_arch_analysis (state : ReviewState) : String := state.analysis_path

/-- `run_architectural_analysis` node.  `outcome` is the result of the
`try` body's analyzer call: the per-file change records it computed, or the
exception message.  On failure the node records the error and downgrades the
path instead of aborting. -/
def run_architectural_analysis (outcome : Except String FileChanges)
    (state : ReviewState) : ReviewState :=
  match outcome with
  | .error e =>
    { state with
      errors := state.errors ++ ["Architectural analysis error: " ++ e],
      analysis_path := "simple" }
  | .ok fcs =>
    let analysis_results := analyzeFileChanges fcs
    { state with
      arch_components := some analysis_results.components,
      arch_dependencies := some analysis_results.dependencies,
      arch_api_changes := some analysis_results.api_changes,
      arch_schema_changes := some analysis_results.schema_changes,
      arch_impact := some analysis_results.impact,
      arch_diagrams := some (generate_all_diagrams analysis_results) }

/-- `enrich_with_architecture` node (placeholder: identity). -/
def enrich_with_architecture (state : ReviewState) : ReviewState := state

/-! ### `_generate_architectural_sections` -/

/-- The Impact-Assessment block of `_generate_architectural_sections`
(`impact = state.get('arch_impact', {})`; an absent key is the falsy `{}`). -/
def impactSections (impact : Option Impact) : List String :=
  match impact with
  | none => []
  | some impact =>
    ["---\n\n## Architectural Overview 🏗️",
     "\n**Impact Assessment:**",
     "- **Scope:** " ++ pyTitle impact.scope ++ " ("
        ++ toString impact.components_affected.length ++ " components)",
     "- **Risk:** " ++ pyTitle impact.risk,
     "- **Complexity:** " ++ pyTitle impact.complexity ++ " ("
        ++ toString impact.files_changed ++ " files, "
        ++ toString impact.lines_added ++ "+ / "
        ++ toString impact.lines_removed ++ "- lines)"] ++
    (if impact.risk_factors ≠ [] then
      ["\n**Risk Factors:**"] ++ impact.risk_factors.map (fun factor => "- " ++ factor)
    else [])

/-- The Components-Modified block. -/
def componentSections (components : List (String × Component)) : List String :=
  if components = [] then []
  else
    ["\n\n**Components Modified:**"] ++
    (components.take 5).map fun (comp_name, comp_data) =>
      "- **" ++ comp_name ++ "** (" ++ comp_data.type ++ "): "
        ++ toString comp_data.file_count ++ " file(s)"

/-- A Mermaid code block (three lines, as three appended list entries). -/
def mermaidBlock (diagram : String) : List String :=
  ["\n\n```mermaid", diagram, "```"]

/-- `_generate_architectural_sections`. -/
def generate_architectural_sections (state : ReviewState) : String :=
  let diagrams := state.arch_diagrams.getD {}
  let impactPart := impactSections state.arch_impact
  let componentsPart := componentSections (state.arch_components.getD [])
  let impactDiagramPart :=
    match diagrams.impact with
    | some d => if d ≠ "" then mermaidBlock d else []
    | none => []
  let api_changes := state.arch_api_changes
  let apiPart : List String :=
    match api_changes with
    | none => [] -- `{}` default: `.get('summary', {}).get('added', 0)` is 0
    | some api_changes =>
      if api_changes.summary.1 > 0 then
        ["\n\n## API Changes 🔌"] ++
        (if api_changes.new_endpoints ≠ [] then
          ["\n**New Endpoints:**"] ++
          (api_changes.new_endpoints.take 8).map (fun endpoint =>
            "- `" ++ endpoint.method ++ " " ++ endpoint.path ++ "` in `"
              ++ endpoint.file ++ "`")
        else []) ++
        (if api_changes.removed_endpoints ≠ [] then
          ["\n**Removed Endpoints:**"] ++
          (api_changes.removed_endpoints.take 8).map (fun endpoint =>
            "- `" ++ endpoint.method ++ " " ++ endpoint.path ++ "` in `"
              ++ endpoint.file ++ "`")
        else []) ++
        (match diagrams.api_surface with
         | some d => if d ≠ "" then mermaidBlock d else []
         | none => [])
      else []
  let schemaPart : List String :=
    match state.arch_schema_changes with
    | none => []
    | some schema_changes =>
      if schema_changes.summary.1 > 0 then
        ["\n\n## Database Schema Changes 🗄️"] ++
        (if schema_changes.migration_files ≠ [] then
          ["\n**Migration Files:**"] ++
          schema_changes.migration_files.map (fun migration => "- `" ++ migration ++ "`")
        else []) ++
        (if schema_changes.new_models ≠ [] then
          ["\n**New Models:**"] ++
          schema_changes.new_models.map (fun model =>
            "- **" ++ model.name ++ "** → `"
              ++ (match model.table with | some t => t | none => "None") ++ "`")
        else []) ++
        (if schema_changes.breaking_changes ≠ [] then
          ["\n**⚠️ Potential Breaking Changes:**"] ++
          schema_changes.breaking_changes.map (fun change => "- " ++ change)
        else [])
      else []
  let depPart : List String :=
    match state.arch_dependencies with
    | none => []
    | some dependencies =>
      if dependencies.added ≠ [] ∨ dependencies.removed ≠ [] then
        ["\n\n## Dependency Changes 📦"] ++
        (if dependencies.added ≠ [] then
          ["\n**New Dependencies:**"] ++
          (dependencies.added.take 10).map (fun dep => "- `" ++ dep ++ "`")
        else []) ++
        (if dependencies.removed ≠ [] then
          ["\n**Removed Dependencies:**"] ++
          (dependencies.removed.take 10).map (fun dep => "- `" ++ dep ++ "`")
        else []) ++
        (match diagrams.dependency with
         | some d => if d ≠ "" then mermaidBlock d else []
         | none => [])
      else []
  pyJoin "\n"
    (impactPart ++ componentsPart ++ impactDiagramPart ++ apiPart ++ schemaPart ++ depPart)

/-- `synthesize_final_feedback` node.  `base` is the outcome of the external
`AgenticReviewService._synthesize_feedback` call (returned markdown, or the
raised exception's message).  On failure the node appends a
`"Synthesis error: ..."` entry and replaces the body with a fixed message. -/
def synthesize_final_feedback (base : Except String String)
    (state : ReviewState) : ReviewState :=
  match base with
  | .error e =>
    { state with
      errors := state.errors ++ ["Synthesis error: " ++ e],
      final_content := "Error generating feedback. Please try again." }
  | .ok base_feedback =>
    let base_feedback :=
      if state.analysis_path = "enhanced" ∧ state.arch_impact.isSome then
        let arch_sections := generate_architectural_sections state
        let insertion_point := pyFind base_feedback "\n\n---\n\n## Other Valid Approaches"
        if insertion_point > 0 then
          (⟨base_feedback.data.take insertion_point.toNat⟩ : String)
            ++ "\n\n" ++ arch_sections
            ++ (⟨base_feedback.data.drop insertion_point.toNat⟩ : String)
        else base_feedback ++ "\n\n" ++ arch_sections
      else base_feedback
    { state with final_content := base_feedback }

/-! ### `save_review_results` and the persistence model

The SQLAlchemy session is modelled as an explicit store of rows; the
`submission_id` columns carry a uniqueness constraint in the schema, and
`Model.query.filter_by(...).first()` / `session.add` / `commit` become
find-first / replace-first-or-append on the row list.  The `id` and
`created_at` columns (never read by the orchestrator) are omitted, and the
JSON serialisation of `set_evaluation` etc. stores the value itself. -/

/-- A row of `ai_feedbacks` (`models/ai_feedback.py`). -/
structure AIFeedbackRow where
  submission_id : Nat
  content : String
  detected_approach : PyVal
  evaluation : PyVal
  alternative_approaches : PyVal
  line_references : List PyVal

/-- A row of `architectural_analyses` (`models/architectural_analysis.py`). -/
structure ArchAnalysisRow where
  submission_id : Nat
  components : List (String × Component)
  dependencies_diff : DependencyReport
  api_changes : APIReport
  schema_changes : SchemaReport
  scope_score : String
  risk_score : String
  complexity_score : String
  files_changed : Nat
  lines_added : Nat
  lines_removed : Nat
  component_diagram : Option String
  dataflow_diagram : Option String
  dependency_diagram : Option String

structure DB where
  ai_feedbacks : List AIFeedbackRow
  arch_analyses : List ArchAnalysisRow

/-- Replace the first row with the given `submission_id` (the updated ORM
object); leaves the rest untouched. -/
def updateFirstFeedback (sid : Nat) (new : AIFeedbackRow) :
    List AIFeedbackRow → List AIFeedbackRow
  | [] => []
  | r :: rest =>
    if r.submission_id = sid then new :: rest
    else r :: updateFirstFeedback sid new rest

def updateFirstArch (sid : Nat) (new : ArchAnalysisRow) :
    List ArchAnalysisRow → List ArchAnalysisRow
  | [] => []
  | r :: rest =>
    if r.submission_id = sid then new :: rest
    else r :: updateFirstArch sid new rest

/-- The `line_references` compilation loop of `save_review_results`. -/
def lineReferencesOf (state : ReviewState) : List PyVal :=
  let evals : List PyVal :=
    match (state.universal_eval.getD (.dict [])).getDict "evaluations" with
    | .lst xs => xs
    | _ => []
  (evals.filter fun item => (item.get "evidence").truthy).map fun item =>
    .dict [("criterion", item.get "criterion_id"), ("reference", item.get "evidence")]

/-- The `evaluation_data` dict assembled by `save_review_results`. -/
def evaluationDataOf (state : ReviewState) : PyVal :=
  .dict [("approach_detection", (state.approach_detection.getD .null)),
         ("architecture", (state.architecture_basic.getD .null)),
         ("universal_criteria", (state.universal_eval.getD .null)),
         ("approach_criteria", (state.approach_eval.getD .null)),
         ("tests", (state.tests_eval.getD .null)),
         ("security", (state.security_analysis.getD .null))]

/-- The feedback row written by `save_review_results` for a given state. -/
def feedbackRowOf (state : ReviewState) : AIFeedbackRow :=
  { submission_id := state.submission_id,
    content := state.final_content,
    detected_approach := (state.approach_detection.getD (.dict [])).get "approach_id",
    evaluation := evaluationDataOf state,
    alternative_approaches := state.alternatives.getD (.dict []),
    line_references := lineReferencesOf state }

/-- The architectural-analysis row written on the enhanced path. -/
def archRowOf (state : ReviewState) (impact : Impact) : ArchAnalysisRow :=
  let diagrams := state.arch_diagrams.getD {}
  { submission_id := state.submission_id,
    components := state.arch_components.getD [],
    dependencies_diff := state.arch_dependencies.getD ⟨[], [], [], []⟩,
    api_changes := state.arch_api_changes.getD ⟨[], [], [], [], (0, 0, 0)⟩,
    schema_changes := state.arch_schema_changes.getD ⟨[], [], [], [], [], (0, 0, 0)⟩,
    scope_score := impact.scope,
    risk_score := impact.risk,
    complexity_score := impact.complexity,
    files_changed := impact.files_changed,
    lines_added := impact.lines_added,
    lines_removed := impact.lines_removed,
    component_diagram := diagrams.component,
    dataflow_diagram := diagrams.dataflow,
    dependency_diagram := diagrams.dependency }

/-- `save_review_results` node.  `exc` models an exception raised by the
database layer (`none` = the session commits); on failure the session is
rolled back, the error recorded, and the state returned unchanged
otherwise. -/
def save_review_results (exc : Option String) (state : ReviewState) (db : DB) :
    ReviewState × DB :=
  match exc with
  | some e => ({ state with errors := state.errors ++ ["Save error: " ++ e] }, db)
  | none =>
    let sid := state.submission_id
    let newFb := feedbackRowOf state
    let fbRows :=
      match db.ai_feedbacks.find? (fun r => r.submission_id = sid) with
      | some _ => updateFirstFeedback sid newFb db.ai_feedbacks
      | none => db.ai_feedbacks ++ [newFb]
    let archRows :=
      if state.analysis_path = "enhanced" ∧ state.arch_impact.isSome then
        match state.arch_impact with
        | some impact =>
          let newArch := archRowOf state impact
          (match db.arch_analyses.find? (fun r => r.submission_id = sid) with
           | some _ => updateFirstArch sid newArch db.arch_analyses
           | none => db.arch_analyses ++ [newArch])
        | none => db.arch_analyses
      else db.arch_analyses
    (state, { ai_feedbacks := fbRows, arch_analyses := archRows })

/-! ### Exact model of the CPython float arithmetic in the progress math

`int((current_progress / total_weight) * 100)` divides two Python ints with
true division (an IEEE-754 binary64, correctly rounded), multiplies by `100`
(again correctly rounded), and truncates toward zero.  For positive rationals
in the range used here (no overflow, no subnormals) a binary64 is
`m · 2^(e-52)` with `2^52 ≤ m < 2^53` and `e = ⌊log2 value⌋`; rounding is
to nearest, ties to even.  We model this with exact `Nat` arithmetic. -/

/-- Round `num/den` (with `den ≠ 0`) to the nearest integer, ties to even. -/
def roundHalfEven (num den : Nat) : Nat :=
  let q := num / den
  let r := num % den
  if 2 * r < den then q
  else if den < 2 * r then q + 1
  else if q % 2 = 0 then q else q + 1

/-- `⌊log2 n⌋` for `n ≥ 1` by fuel recursion (kernel-reducible). -/
def log2floorFuel : Nat → Nat → Nat
  | 0, _ => 0
  | fuel + 1, n => if 2 ≤ n then log2floorFuel fuel (n / 2) + 1 else 0

/-- Round the positive rational `num/den` to binary64: the result is
`(m, e)` with value `m · 2^e`.  Valid for `2^-70 ≤ num/den < 2^52` — the
whole range arising in the progress computations. -/
def flRound (num den : Nat) : Nat × Int :=
  if num = 0 then (0, 0)
  else
    let e : Int := (log2floorFuel 200 (num * 2 ^ 70 / den) : Int) - 70
    let shift : Nat := (52 - e).toNat
    let m := roundHalfEven (num * 2 ^ shift) den
    (m, e - 52)

/-- Multiply a binary64 `(m, e)` by a small nonnegative integer, rounding. -/
def flTimesNat (m : Nat) (e : Int) (k : Nat) : Nat × Int :=
  if 0 ≤ e then flRound (m * k * 2 ^ e.toNat) 1
  else flRound (m * k) (2 ^ (-e).toNat)

/-- `int(x)` (truncation toward zero) of a nonnegative binary64 `(m, e)`. -/
def flTrunc (m : Nat) (e : Int) : Nat :=
  if 0 ≤ e then m * 2 ^ e.toNat else m / 2 ^ (-e).toNat

/-- `int((current / total) * 100)` in CPython float semantics. -/
def pyProgressInt (current total : Nat) : Nat :=
  let (m1, e1) := flRound current total
  let (m2, e2) := flTimesNat m1 e1 100
  flTrunc m2 e2

/-- `int(8 + (pct / 100.0) * 50)` of `sub_progress_callback` in CPython
float semantics (`8 + x` is exact for the magnitudes involved only after
rounding; modelled as a correctly rounded sum of exact rationals). -/
def pySubProgressInt (pct : Nat) : Nat :=
  let (m1, e1) := flRound pct 100
  let (m2, e2) := flTimesNat m1 e1 50
  -- 8 + x: both summands are exactly representable here iff x has few bits;
  -- the sum is correctly rounded: x = m2·2^e2, 8 + x = (8·2^(-e2) + m2)·2^e2
  let (m3, e3) :=
    if 0 ≤ e2 then flRound (8 + m2 * 2 ^ e2.toNat) 1
    else flRound (8 * 2 ^ (-e2).toNat + m2) (2 ^ (-e2).toNat)
  flTrunc m3 e3

/-! ### The streaming drivers -/

/-- The `step_metadata` table (shared by `orchestrate_review_streaming` and
`orchestrate_review_streaming_generator`). -/
def step_metadata : List (String × String × Nat) :=
  [("initialize", "Setting up analysis", 5),
   ("route_analysis", "Determining analysis path", 3),
   ("run_basic_review", "Running core analysis", 50),
   ("run_arch_analysis", "Analyzing architecture", 20),
   ("enrich_feedback", "Cross-referencing insights", 7),
   ("synthesize", "Creating feedback", 10),
   ("save_results", "Saving results", 5)]

def total_weight : Nat := (step_metadata.map fun meta => meta.2.2).sum

def completeEvent : ProgressEvent :=
  { step := "complete", description := "Analysis complete", progress := 100,
    status := "complete" }

/-- The loop body of `orchestrate_review_streaming_generator`: each
`graph.stream(..., stream_mode="updates")` item is a `(nodeName, nodeState)`
pair (the dict update of the node that just executed).  Produces the yielded
progress events (node events interleaved with newly appended sub-step
events) followed by the synthetic completion event, plus the captured final
state from which the trailing `("RESULT", ...)` dict is built. -/
def generatorLoop : List (String × ReviewState) → Nat → Nat →
    Option ReviewState → List ProgressEvent × Option ReviewState
  | [], _, _, final_state => ([completeEvent], final_state)
  | (node_name, node_state) :: rest, current_progress, last_emitted, _ =>
    let (nodeEvents, current') :=
      match step_metadata.find? (fun meta => meta.1 = node_name) with
      | some meta =>
        ([{ step := node_name, description := meta.2.1,
            progress := pyProgressInt (current_progress + meta.2.2) total_weight,
            status := "running" }],
         current_progress + meta.2.2)
      | none => ([], current_progress)
    let (subEvents, last') :=
      match node_state.progress_events with
      | some pes => (pes.drop last_emitted, pes.length)
      | none => ([], last_emitted)
    let (restEvents, final_state) := generatorLoop rest current' last' (some node_state)
    (nodeEvents ++ subEvents ++ restEvents, final_state)

/-- `orchestrate_review_streaming_generator`, as a function of the node
update stream: all yielded progress events in order (the trailing
`("RESULT", result)` item is a pure projection of the returned final
state). -/
def orchestrate_review_streaming_generator (events : List (String × ReviewState)) :
    List ProgressEvent × Option ReviewState :=
  generatorLoop events 0 0 none

/-- The loop body of `orchestrate_review_streaming` (callback flavour): only
node events are delivered to `progress_callback`, then the completion
event. -/
def callbackLoop : List (String × ReviewState) → Nat →
    Option ReviewState → List ProgressEvent × Option ReviewState
  | [], _, final_state => ([completeEvent], final_state)
  | (node_name, node_state) :: rest, current_progress, _ =>
    let (nodeEvents, current') :=
      match step_metadata.find? (fun meta => meta.1 = node_name) with
      | some meta =>
        ([{ step := node_name, description := meta.2.1,
            progress := pyProgressInt (current_progress + meta.2.2) total_weight,
            status := "running" }],
         current_progress + meta.2.2)
      | none => ([], current_progress)
    let (restEvents, final_state) := callbackLoop rest current' (some node_state)
    (nodeEvents ++ restEvents, final_state)

/-- `orchestrate_review_streaming`, as a function of the node update
stream: the sequence of progress events passed to `progress_callback`. -/
def orchestrate_review_streaming (events : List (String × ReviewState)) :
    List ProgressEvent × Option ReviewState :=
  callbackLoop events 0 none

/-! ## Claim-support definitions

Definitions used by the theorems below: specification-side characterisations,
per-file contribution functions mirroring the analyzers' loop bodies, and
concrete fixtures for witnesses, counterexamples and boundary checks. -/

/-- The `(nodeName, cumulativeProgress)` events a node-name sequence produces,
with the progress values CPython's float arithmetic actually yields
(`pyProgressInt` of the running weight sum). -/
def specGo : List String → Nat → List ProgressEvent
  | [], _ => []
  | n :: rest, current =>
    match step_metadata.find? (fun meta => meta.1 = n) with
    | some meta =>
      { step := n, description := meta.2.1,
        progress := pyProgressInt (current + meta.2.2) total_weight,
        status := "running" } :: specGo rest (current + meta.2.2)
    | none => specGo rest current

def specNodeProgressEvents (names : List String) : List ProgressEvent :=
  specGo names 0

def progressWitnessState : ReviewState := { submission_id := 1 }

/-- Whether any of the language's import patterns matches the (stripped)
line — the line is "import-shaped". -/
def import_line_matches (language : String) (line : String) : Bool :=
  if language = "python" then
    (matchPyImport (pyStripChars line.data)).isSome
      || (matchPyFrom (pyStripChars line.data)).isSome
  else if language = "javascript" ∨ language = "typescript" then
    (matchJsImportDefault (pyStripChars line.data)).isSome
      || (matchJsImportNamed (pyStripChars line.data)).isSome
      || (matchJsRequire (pyStripChars line.data)).isSome
  else if language = "java" then
    (matchJavaImport (pyStripChars line.data)).isSome
  else false

/-- A file-change record carrying only a filename (used for threshold
boundary checks). -/
def fcNamed (fn : String) : String × FileChange := (fn, ⟨fn, "modified", 0, 0, "", none⟩)

/-- A file-change record carrying a filename and an addition count. -/
def fcLines (fn : String) (adds : Nat) : String × FileChange :=
  (fn, ⟨fn, "modified", adds, 0, "", none⟩)

def depEmpty : DependencyReport := ⟨[], [], [], []⟩

def apiEmpty : APIReport := ⟨[], [], [], [], (0, 0, 0)⟩

def schEmpty : SchemaReport := ⟨[], [], [], [], [], (0, 0, 0)⟩

/-- An API report with `n` breaking-change strings (risk-boundary checks). -/
def apiBreak (n : Nat) : APIReport := ⟨[], [], [], List.replicate n "b", (0, 0, 0)⟩

/-- One execution of a post-initialization workflow node, with its external
inputs (configuration, service outcomes, database) bundled in. -/
inductive NodeStep where
  | route (cfg : ConfigFlags)
  | basic (svc : Except String PyVal) (subProgress : List (String × String × Nat))
      (progressOf : Nat → Nat)
  | arch (outcome : Except String FileChanges)
  | enrich
  | synth (base : Except String String)
  | save (exc : Option String) (db : DB)

def applyStep (step : NodeStep) (state : ReviewState) : ReviewState :=
  match step with
  | .route cfg => route_analysis_type cfg state
  | .basic svc sub prog => run_basic_review svc sub prog state
  | .arch outcome => run_architectural_analysis outcome state
  | .enrich => enrich_with_architecture state
  | .synth base => synthesize_final_feedback base state
  | .save exc db => (save_review_results exc state db).1

def saveWitnessState1 : ReviewState := { submission_id := 7, final_content := "first" }

def saveWitnessState2 : ReviewState := { submission_id := 7, final_content := "second" }

/-- The `new_endpoints` contribution of one file in `_analyze_api_changes`. -/
def apiNewContribution (p : String × FileChange) : List Endpoint :=
  match p.2.language with
  | none => []
  | some language =>
    if language ∉ apiLanguages then []
    else if p.2.patch = "" then []
    else (parse_api_routes (addedCodeOf p.2) language).map (mkEndpoint p.1)

/-- The `removed_endpoints` contribution of one file. -/
def apiRemovedContribution (p : String × FileChange) : List Endpoint :=
  match p.2.language with
  | none => []
  | some language =>
    if language ∉ apiLanguages then []
    else if p.2.patch = "" then []
    else (parse_api_routes (removedCodeOf p.2) language).map (mkEndpoint p.1)

def apiCounterCh : FileChange :=
  ⟨"app.py", "modified", 1, 1, "+@app.route('/x')\n-@app.route('/x')", some "python"⟩

/-- The `breaking_changes` contribution of one file in
`_analyze_schema_changes`. -/
def schemaBreakingContribution (p : String × FileChange) : List String :=
  if is_migration_file p.1 then
    (if ["drop table", "drop column", "alter column"].any
        (fun k => pyIn k (pyLower p.2.patch)) then
      ["Migration " ++ p.1 ++ " contains potentially breaking schema changes"]
    else [])
  else []

def migrationWitnessFcs : FileChanges :=
  [("app/migrations/001_drop.sql",
    ⟨"app/migrations/001_drop.sql", "removed", 0, 1, "-DROP TABLE users;", none⟩)]

/-! ## C6 — streaming progress (corrected: CPython float truncation) -/

theorem getLast?_append_some {α : Type} (l : List α) {l2 : List α} {x : α}
    (h : l2.getLast? = some x) : (l ++ l2).getLast? = some x := by
  rw [List.getLast?_append, h]
  rfl

theorem getLast?_cons_some {α : Type} (a : α) {l : List α} {x : α}
    (h : l.getLast? = some x) : (a :: l).getLast? = some x := by
  have := getLast?_append_some [a] h
  simpa using this

theorem generatorLoop_getLast (events : List (String × ReviewState)) :
    ∀ (current last : Nat) (fs : Option ReviewState),
      (generatorLoop events current last fs).1.getLast? = some completeEvent := by
  induction events with
  | nil => intro current last fs; rfl
  | cons p rest ih =>
    intro current last fs
    rcases p with ⟨node_name, node_state⟩
    unfold generatorLoop
    cases hfind : step_metadata.find? (fun meta => meta.1 = node_name) with
    | none =>
      cases hpe : node_state.progress_events with
      | none => exact ih current last (some node_state)
      | some pes =>
        exact getLast?_append_some _ (ih current pes.length (some node_state))
    | some meta =>
      cases hpe : node_state.progress_events with
      | none =>
        exact getLast?_cons_some _ (ih (current + meta.2.2) last (some node_state))
      | some pes =>
        exact getLast?_cons_some _
          (getLast?_append_some _ (ih (current + meta.2.2) pes.length (some node_state)))

theorem callbackLoop_getLast (events : List (String × ReviewState)) :
    ∀ (current : Nat) (fs : Option ReviewState),
      (callbackLoop events current fs).1.getLast? = some completeEvent := by
  induction events with
  | nil => intro current fs; rfl
  | cons p rest ih =>
    intro current fs
    rcases p with ⟨node_name, node_state⟩
    unfold callbackLoop
    cases hfind : step_metadata.find? (fun meta => meta.1 = node_name) with
    | none => exact ih current (some node_state)
    | some meta => exact getLast?_cons_some _ (ih (current + meta.2.2) (some node_state))

theorem generatorLoop_spec (events : List (String × ReviewState))
    (h : ∀ p ∈ events, p.2.progress_events = none ∨ p.2.progress_events = some []) :
    ∀ (current last : Nat) (fs : Option ReviewState),
      (generatorLoop events current last fs).1
        = specGo (events.map fun p => p.1) current ++ [completeEvent] := by
  induction events with
  | nil => intro current last fs; rfl
  | cons p rest ih =>
    intro current last fs
    rcases p with ⟨node_name, node_state⟩
    have hrest : ∀ q ∈ rest, q.2.progress_events = none ∨ q.2.progress_events = some [] :=
      fun q hq => h q (List.mem_cons_of_mem _ hq)
    have hhead : node_state.progress_events = none ∨ node_state.progress_events = some [] :=
      h (node_name, node_state) (List.mem_cons_self _ _)
    unfold generatorLoop
    cases hfind : step_metadata.find? (fun meta => meta.1 = node_name) with
    | none =>
      rcases hhead with hpe | hpe <;>
        simp [hfind, hpe, ih hrest, specGo]
    | some meta =>
      rcases hhead with hpe | hpe <;>
        simp [hfind, hpe, ih hrest, specGo]

theorem callbackLoop_spec (events : List (String × ReviewState)) :
    ∀ (current : Nat) (fs : Option ReviewState),
      (callbackLoop events current fs).1
        = specGo (events.map fun p => p.1) current ++ [completeEvent] := by
  induction events with
  | nil => intro current fs; rfl
  | cons p rest ih =>
    intro current fs
    rcases p with ⟨node_name, node_state⟩
    unfold callbackLoop
    cases hfind : step_metadata.find? (fun meta => meta.1 = node_name) <;>
      simp [hfind, ih, specGo]

/-- C6 (amended): the seven node weights sum to 100, and in both drivers the
final progress event of every run is the synthetic `("complete", 100)` event
(also on the simple path, whose running weight sum never reaches 100).  Each
node event's cumulative progress is `int((sum / 100) * 100)` computed in
CPython binary64 floats — which equals the floor-rounded running weight sum
at every reachable sum *except* 58 (after `run_basic_review`), where the
emitted value is 57. -/
theorem streaming_progress_characterization :
    ((step_metadata.map fun meta => meta.2.2).sum = 100 ∧ completeEvent.progress = 100) ∧
    (∀ events : List (String × ReviewState),
      (orchestrate_review_streaming_generator events).1.getLast? = some completeEvent ∧
      (orchestrate_review_streaming events).1.getLast? = some completeEvent) ∧
    (∀ events : List (String × ReviewState),
      (∀ p ∈ events, p.2.progress_events = none ∨ p.2.progress_events = some []) →
      (orchestrate_review_streaming_generator events).1
        = specNodeProgressEvents (events.map fun p => p.1) ++ [completeEvent]) ∧
    (∀ events : List (String × ReviewState),
      (orchestrate_review_streaming events).1
        = specNodeProgressEvents (events.map fun p => p.1) ++ [completeEvent]) ∧
    (pyProgressInt 58 100 = 57 ∧
      ∀ c ∈ [5, 8, 68, 73, 78, 85, 95, 100], pyProgressInt c 100 = c) := by
  refine ⟨⟨by decide, rfl⟩, ?_, ?_, ?_, by decide, by decide⟩
  · intro events
    exact ⟨generatorLoop_getLast events 0 0 none, callbackLoop_getLast events 0 none⟩
  · intro events h
    exact generatorLoop_spec events h 0 0 none
  · intro events
    exact callbackLoop_spec events 0 none

/-- Concrete instantiation of `streaming_progress_characterization` on the
simple-path node sequence (no sub-events). -/
theorem streaming_progress_characterization_witness :
    (orchestrate_review_streaming_generator
        [("initialize", progressWitnessState), ("route_analysis", progressWitnessState),
         ("run_basic_review", progressWitnessState), ("synthesize", progressWitnessState),
         ("save_results", progressWitnessState)]).1
      = specNodeProgressEvents ["initialize", "route_analysis", "run_basic_review",
          "synthesize", "save_results"] ++ [completeEvent] :=
  streaming_progress_characterization.2.2.1
    [("initialize", progressWitnessState), ("route_analysis", progressWitnessState),
     ("run_basic_review", progressWitnessState), ("synthesize", progressWitnessState),
     ("save_results", progressWitnessState)]
    (by intro p hp; left; fin_cases hp <;> rfl)

/-- C6 counterexample: on the simple-path run the event emitted after
`run_basic_review` carries progress 57, while the floor-rounded running
weight sum is 5 + 3 + 50 = 58 — the claim's "cumulative progress equals the
floor-rounded running weight sum" fails there. -/
theorem streaming_progress_counterexample :
    (orchestrate_review_streaming_generator
        [("initialize", { submission_id := 1 }), ("route_analysis", { submission_id := 1 }),
         ("run_basic_review", { submission_id := 1 }), ("synthesize", { submission_id := 1 }),
         ("save_results", { submission_id := 1 })]).1[2]?
      = some (⟨"run_basic_review", "Running core analysis", 57, "running"⟩ : ProgressEvent) ∧
    5 + 3 + 50 = 58 ∧ (57 : Nat) ≠ 58 := by
  refine ⟨by decide, rfl, by decide⟩

/-! ## Shared helper lemmas -/

theorem mem_pySorted {a : String} {l : List String} : a ∈ pySorted l ↔ a ∈ l :=
  (List.mergeSort_perm l _).mem_iff

theorem string_eq_empty_iff {s : String} : s = "" ↔ s.data = [] := by
  constructor
  · intro h; rw [h]
  · intro h; apply String.ext; simpa using h

theorem append_ne_empty_of_left_ne {s t : String} (h : s.data ≠ []) : s ++ t ≠ "" := by
  intro hc
  rw [string_eq_empty_iff, String.data_append, List.append_eq_nil] at hc
  exact h hc.1

/-! ## C1 — dependency symmetric cancellation -/

/-- C1: a module appearing in both the set of imports parsed from added
lines and the set parsed from removed lines (over all files of the change
collection) occurs in neither the `added` nor the `removed` list of the
dependency report: both lists are sorted set differences. -/
theorem dependency_symmetric_cancellation (fcs : FileChanges) (m : String)
    (h1 : m ∈ (dependencyImportSets fcs).1)
    (h2 : m ∈ (dependencyImportSets fcs).2.1) :
    m ∉ (analyze_dependencies fcs).added ∧ m ∉ (analyze_dependencies fcs).removed := by
  constructor
  · intro hmem
    rw [show (analyze_dependencies fcs).added =
        pySorted ((dependencyImportSets fcs).1.filter
          (fun x => x ∉ (dependencyImportSets fcs).2.1)) from rfl,
      mem_pySorted, List.mem_filter] at hmem
    exact absurd h2 (by simpa using hmem.2)
  · intro hmem
    rw [show (analyze_dependencies fcs).removed =
        pySorted ((dependencyImportSets fcs).2.1.filter
          (fun x => x ∉ (dependencyImportSets fcs).1)) from rfl,
      mem_pySorted, List.mem_filter] at hmem
    exact absurd h1 (by simpa using hmem.2)

/-- Concrete instantiation of `dependency_symmetric_cancellation`: a file
both adds and removes `import os`. -/
theorem dependency_symmetric_cancellation_witness :
    "os" ∈ (dependencyImportSets
        [("a.py", ⟨"a.py", "modified", 1, 1, "+import os\n-import os", some "python"⟩)]).1 ∧
    "os" ∈ (dependencyImportSets
        [("a.py", ⟨"a.py", "modified", 1, 1, "+import os\n-import os", some "python"⟩)]).2.1 ∧
    "os" ∉ (analyze_dependencies
        [("a.py", ⟨"a.py", "modified", 1, 1, "+import os\n-import os", some "python"⟩)]).added ∧
    "os" ∉ (analyze_dependencies
        [("a.py", ⟨"a.py", "modified", 1, 1, "+import os\n-import os", some "python"⟩)]).removed := by
  refine ⟨by decide, by decide, ?_⟩
  exact dependency_symmetric_cancellation _ "os" (by decide) (by decide)

/-! ## C4 — parser totality, empty inputs, non-matching lines

The parser entry points are total Lean functions (no exception effect in
their types); the theorem additionally pins the unsupported-language, empty
input and no-import-shaped-line behaviours. -/

theorem pyImportLine_eq_nil {n : Nat} {line : Chars}
    (h1 : matchPyImport line = none) (h2 : matchPyFrom line = none) :
    pyImportLine n line = [] := by
  simp [pyImportLine, h1, h2]

theorem jsImportLine_eq_nil {tag : String} {n : Nat} {line : Chars}
    (h1 : matchJsImportDefault line = none) (h2 : matchJsImportNamed line = none)
    (h3 : matchJsRequire line = none) :
    jsImportLine tag n line = [] := by
  simp [jsImportLine, h1, h2, h3]

theorem javaImportLine_eq_nil {n : Nat} {line : Chars}
    (h1 : matchJavaImport line = none) :
    javaImportLine n line = [] := by
  simp [javaImportLine, h1]

theorem isSome_false_eq_none {α : Type} {o : Option α} (h : o.isSome = false) :
    o = none := by
  cases o <;> simp_all

theorem line_mem_of_enum_mem {lines : List String} {i : Nat} {line : String}
    (hmem : (i, line) ∈ lines.enum) : line ∈ lines :=
  List.getElem?_mem (by simpa using (List.mem_enum_iff_getElem?.1 hmem))

theorem parseImportsPython_eq_nil {code : String}
    (h : ∀ line ∈ pySplit '\n' code,
      ((matchPyImport (pyStripChars line.data)).isSome
        || (matchPyFrom (pyStripChars line.data)).isSome) = false) :
    parseImportsPython code = [] := by
  unfold parseImportsPython
  rw [List.flatten_eq_nil_iff]
  intro l hl
  obtain ⟨⟨i, line⟩, hmem, rfl⟩ := List.mem_map.1 hl
  have hm := h line (line_mem_of_enum_mem hmem)
  rw [Bool.or_eq_false_iff] at hm
  exact pyImportLine_eq_nil (isSome_false_eq_none hm.1) (isSome_false_eq_none hm.2)

theorem parseImportsJS_eq_nil {tag : String} {code : String}
    (h : ∀ line ∈ pySplit '\n' code,
      ((matchJsImportDefault (pyStripChars line.data)).isSome
        || (matchJsImportNamed (pyStripChars line.data)).isSome
        || (matchJsRequire (pyStripChars line.data)).isSome) = false) :
    parseImportsJS tag code = [] := by
  unfold parseImportsJS
  rw [List.flatten_eq_nil_iff]
  intro l hl
  obtain ⟨⟨i, line⟩, hmem, rfl⟩ := List.mem_map.1 hl
  have hm := h line (line_mem_of_enum_mem hmem)
  rw [Bool.or_eq_false_iff, Bool.or_eq_false_iff] at hm
  exact jsImportLine_eq_nil (isSome_false_eq_none hm.1.1)
    (isSome_false_eq_none hm.1.2) (isSome_false_eq_none hm.2)

theorem parseImportsJava_eq_nil {code : String}
    (h : ∀ line ∈ pySplit '\n' code,
      (matchJavaImport (pyStripChars line.data)).isSome = false) :
    parseImportsJava code = [] := by
  unfold parseImportsJava
  rw [List.flatten_eq_nil_iff]
  intro l hl
  obtain ⟨⟨i, line⟩, hmem, rfl⟩ := List.mem_map.1 hl
  exact javaImportLine_eq_nil
    (isSome_false_eq_none (h line (line_mem_of_enum_mem hmem)))

/-- C4: the parser entry points are total functions (they inhabit
exception-free types, so no input raises); an unsupported language yields
`[]` for all three entry points; `parse_imports` of the empty text yields
`[]` for every language; and text none of whose lines is import-shaped
yields `[]` (a non-matching line contributes no record). -/
theorem parser_totality_empty_nonmatching :
    (∀ (code language : String),
      language ∉ ["python", "javascript", "typescript", "java"] →
      parse_imports code language = [] ∧ parse_api_routes code language = [] ∧
        parse_database_models code language = []) ∧
    (∀ language : String, parse_imports "" language = []) ∧
    (∀ (code language : String),
      (∀ line ∈ pySplit '\n' code, import_line_matches language line = false) →
      parse_imports code language = []) := by
  refine ⟨?_, ?_, ?_⟩
  · intro code language h
    simp only [List.mem_cons, List.not_mem_nil, or_false] at h
    push_neg at h
    obtain ⟨h1, h2, h3, h4⟩ := h
    exact ⟨by simp [parse_imports, h1, h2, h3, h4],
           by simp [parse_api_routes, h1, h2, h3, h4],
           by simp [parse_database_models, h1, h2, h3, h4]⟩
  · intro language
    unfold parse_imports
    split_ifs <;> rfl
  · intro code language h
    unfold parse_imports
    split_ifs with h1 h2 h3 h4
    · refine parseImportsPython_eq_nil (fun line hline => ?_)
      have := h line hline
      simpa [import_line_matches, h1] using this
    · refine parseImportsJS_eq_nil (fun line hline => ?_)
      have := h line hline
      simpa [import_line_matches, h1, h2] using this
    · refine parseImportsJS_eq_nil (fun line hline => ?_)
      have := h line hline
      simpa [import_line_matches, h1, h3] using this
    · refine parseImportsJava_eq_nil (fun line hline => ?_)
      have := h line hline
      simpa [import_line_matches, h1, h2, h3, h4] using this
    · rfl

/-! ## C9 — dependency diagram: emptiness and first-8 truncation -/

theorem pyJoin_cons_cons (sep x y : String) (rest : List String) :
    pyJoin sep (x :: y :: rest) = x ++ sep ++ pyJoin sep (y :: rest) := rfl

/-- C9: `generate_dependency_graph` is a pure function (no effects in its
type); it renders the empty string exactly when both the added and the
removed dependency lists are empty, and it renders only the first 8 entries
of each list in input order: the output is unchanged by truncating both
inputs to their first 8 elements. -/
theorem dependency_graph_empty_and_first8 (deps : DependencyReport) :
    (generate_dependency_graph deps = "" ↔ deps.added = [] ∧ deps.removed = []) ∧
    generate_dependency_graph deps =
      generate_dependency_graph
        { deps with added := deps.added.take 8, removed := deps.removed.take 8 } := by
  by_cases h : deps.added = [] ∧ deps.removed = []
  · obtain ⟨ha, hr⟩ := h
    exact ⟨by simp [generate_dependency_graph, ha, hr],
      by simp [generate_dependency_graph, ha, hr]⟩
  · have h' : ¬(deps.added.take 8 = [] ∧ deps.removed.take 8 = []) := by
      simp only [List.take_eq_nil_iff]
      intro hc
      exact h ⟨(hc.1).resolve_left (by decide), (hc.2).resolve_left (by decide)⟩
    constructor
    · apply iff_of_false _ h
      simp only [generate_dependency_graph]
      rw [if_neg h]
      have hne : ∀ tail : List String,
          pyJoin "\n" ("graph LR" :: "    Project[\"Your Project\"]" :: tail) ≠ "" := by
        intro tail
        rw [pyJoin_cons_cons]
        exact append_ne_empty_of_left_ne (by decide)
      exact hne _
    · simp only [generate_dependency_graph]
      rw [if_neg h, if_neg h']
      simp [List.take_take]

/-! ## C3 — impact thresholds -/

theorem scopeOf_iff (n f : Nat) :
    (scopeOf n f = "low" ↔ n ≤ 1 ∧ f ≤ 3) ∧
    (scopeOf n f = "medium" ↔ ¬(n ≤ 1 ∧ f ≤ 3) ∧ (n ≤ 3 ∧ f ≤ 10)) ∧
    (scopeOf n f = "high" ↔ ¬(n ≤ 1 ∧ f ≤ 3) ∧ ¬(n ≤ 3 ∧ f ≤ 10)) := by
  unfold scopeOf
  split_ifs with h1 h2
  · exact ⟨iff_of_true rfl h1,
      iff_of_false (by decide) (fun hc => hc.1 h1),
      iff_of_false (by decide) (fun hc => hc.1 h1)⟩
  · exact ⟨iff_of_false (by decide) h1, iff_of_true rfl ⟨h1, h2⟩,
      iff_of_false (by decide) (fun hc => hc.2 h2)⟩
  · exact ⟨iff_of_false (by decide) h1,
      iff_of_false (by decide) (fun hc => h2 hc.2), iff_of_true rfl ⟨h1, h2⟩⟩

theorem riskOf_iff (n : Nat) :
    (riskOf n = "low" ↔ n = 0) ∧
    (riskOf n = "medium" ↔ 1 ≤ n ∧ n ≤ 2) ∧
    (riskOf n = "high" ↔ 3 ≤ n) := by
  unfold riskOf
  split_ifs with h1 h2
  · exact ⟨iff_of_false (by decide) (by omega),
      iff_of_false (by decide) (by omega), iff_of_true rfl h1⟩
  · exact ⟨iff_of_false (by decide) (by omega), iff_of_true rfl (by omega),
      iff_of_false (by decide) h1⟩
  · exact ⟨iff_of_true rfl (by omega), iff_of_false (by decide) (by omega),
      iff_of_false (by decide) h1⟩

theorem complexityOf_iff (t f : Nat) :
    (complexityOf t f = "low" ↔ t ≤ 100 ∧ f ≤ 5) ∧
    (complexityOf t f = "medium" ↔ ¬(t ≤ 100 ∧ f ≤ 5) ∧ (t ≤ 500 ∧ f ≤ 15)) ∧
    (complexityOf t f = "high" ↔ ¬(t ≤ 500 ∧ f ≤ 15)) := by
  unfold complexityOf
  split_ifs with h1 h2
  · exact ⟨iff_of_false (by decide) (by omega),
      iff_of_false (by decide) (by omega), iff_of_true rfl (by omega)⟩
  · exact ⟨iff_of_false (by decide) (by omega), iff_of_true rfl (by omega),
      iff_of_false (by decide) (by omega)⟩
  · exact ⟨iff_of_true rfl (by omega), iff_of_false (by decide) (by omega),
      iff_of_false (by decide) (by omega)⟩

/-- C3: scope, risk and complexity are computed independently from the exact
fixed thresholds (characterised as equivalences over all inputs), and all
the claimed fence-post boundaries flip the classification: files 3/4 and
10/11, components 1/2 and 3/4, risk signals 0/1/2/3, lines 100/101 and
500/501. -/
theorem impact_thresholds_exact :
    (∀ (fcs : FileChanges) (dep : DependencyReport) (api : APIReport)
        (sch : SchemaReport),
      ((assess_impact fcs dep api sch).scope = "low" ↔
        (componentNamesSet fcs).length ≤ 1 ∧ fcs.length ≤ 3) ∧
      ((assess_impact fcs dep api sch).scope = "medium" ↔
        ¬((componentNamesSet fcs).length ≤ 1 ∧ fcs.length ≤ 3) ∧
          ((componentNamesSet fcs).length ≤ 3 ∧ fcs.length ≤ 10)) ∧
      ((assess_impact fcs dep api sch).scope = "high" ↔
        ¬((componentNamesSet fcs).length ≤ 1 ∧ fcs.length ≤ 3) ∧
          ¬((componentNamesSet fcs).length ≤ 3 ∧ fcs.length ≤ 10)) ∧
      ((assess_impact fcs dep api sch).risk = "low" ↔
        (riskFactorsOf dep api sch).length = 0) ∧
      ((assess_impact fcs dep api sch).risk = "medium" ↔
        1 ≤ (riskFactorsOf dep api sch).length ∧ (riskFactorsOf dep api sch).length ≤ 2) ∧
      ((assess_impact fcs dep api sch).risk = "high" ↔
        3 ≤ (riskFactorsOf dep api sch).length) ∧
      ((assess_impact fcs dep api sch).complexity = "low" ↔
        linesAddedOf fcs + linesRemovedOf fcs ≤ 100 ∧ fcs.length ≤ 5) ∧
      ((assess_impact fcs dep api sch).complexity = "medium" ↔
        ¬(linesAddedOf fcs + linesRemovedOf fcs ≤ 100 ∧ fcs.length ≤ 5) ∧
          (linesAddedOf fcs + linesRemovedOf fcs ≤ 500 ∧ fcs.length ≤ 15)) ∧
      ((assess_impact fcs dep api sch).complexity = "high" ↔
        ¬(linesAddedOf fcs + linesRemovedOf fcs ≤ 500 ∧ fcs.length ≤ 15))) ∧
    -- files 3/4 at one component
    ((assess_impact (["services/a.py", "services/b.py", "services/c.py"].map fcNamed)
        depEmpty apiEmpty schEmpty).scope = "low" ∧
     (assess_impact (["services/a.py", "services/b.py", "services/c.py",
        "services/d.py"].map fcNamed) depEmpty apiEmpty schEmpty).scope = "medium") ∧
    -- files 10/11 at three components
    ((assess_impact (["services/a.py", "services/b.py", "services/c.py",
        "services/d.py", "services/e.py", "services/f.py", "services/g.py",
        "services/h.py", "models/a.py", "utils/a.py"].map fcNamed)
        depEmpty apiEmpty schEmpty).scope = "medium" ∧
     (assess_impact (["services/a.py", "services/b.py", "services/c.py",
        "services/d.py", "services/e.py", "services/f.py", "services/g.py",
        "services/h.py", "services/i.py", "models/a.py", "utils/a.py"].map fcNamed)
        depEmpty apiEmpty schEmpty).scope = "high") ∧
    -- components 1/2 (two files)
    ((assess_impact (["services/a.py", "services/b.py"].map fcNamed)
        depEmpty apiEmpty schEmpty).scope = "low" ∧
     (assess_impact (["services/a.py", "models/b.py"].map fcNamed)
        depEmpty apiEmpty schEmpty).scope = "medium") ∧
    -- components 3/4
    ((assess_impact (["services/a.py", "models/b.py", "utils/c.py"].map fcNamed)
        depEmpty apiEmpty schEmpty).scope = "medium" ∧
     (assess_impact (["services/a.py", "models/b.py", "utils/c.py",
        "config/d.py"].map fcNamed) depEmpty apiEmpty schEmpty).scope = "high") ∧
    -- breaking-change signals 0/1/2/3
    ((assess_impact [] depEmpty apiEmpty schEmpty).risk = "low" ∧
     (assess_impact [] depEmpty (apiBreak 1) schEmpty).risk = "medium" ∧
     (assess_impact [] depEmpty (apiBreak 2) schEmpty).risk = "medium" ∧
     (assess_impact [] depEmpty (apiBreak 3) schEmpty).risk = "high") ∧
    -- total changed lines 100/101 and 500/501
    ((assess_impact [fcLines "a.py" 100] depEmpty apiEmpty schEmpty).complexity = "low" ∧
     (assess_impact [fcLines "a.py" 101] depEmpty apiEmpty schEmpty).complexity = "medium" ∧
     (assess_impact [fcLines "a.py" 500] depEmpty apiEmpty schEmpty).complexity = "medium" ∧
     (assess_impact [fcLines "a.py" 501] depEmpty apiEmpty schEmpty).complexity = "high") := by
  refine ⟨fun fcs dep api sch => ?_, by decide, by decide, by decide, by decide,
    by decide, by decide⟩
  obtain ⟨s1, s2, s3⟩ := scopeOf_iff (componentNamesSet fcs).length fcs.length
  obtain ⟨r1, r2, r3⟩ := riskOf_iff (riskFactorsOf dep api sch).length
  obtain ⟨c1, c2, c3⟩ :=
    complexityOf_iff (linesAddedOf fcs + linesRemovedOf fcs) fcs.length
  exact ⟨s1, s2, s3, r1, r2, r3, c1, c2, c3⟩

/-! ## C10 — the synthesize node never propagates an exception -/

/-- C10: when building the final report raises (the external synthesis call
returns `.error`), `synthesize_final_feedback` swallows the exception for
every input state: it appends exactly one entry starting with
`"Synthesis error:"` to `errors`, sets `final_content` to exactly
`"Error generating feedback. Please try again."` (replacing any report
body), and hence the returned state's `final_content` is non-empty. -/
theorem synthesize_error_handling (state : ReviewState) (msg : String) :
    (∃ e, (synthesize_final_feedback (.error msg) state).errors
        = state.errors ++ [e] ∧ "Synthesis error:".data <+: e.data) ∧
    (synthesize_final_feedback (.error msg) state).final_content
      = "Error generating feedback. Please try again." ∧
    (synthesize_final_feedback (.error msg) state).final_content ≠ "" := by
  have h2 : (synthesize_final_feedback (.error msg) state).final_content
      = "Error generating feedback. Please try again." := rfl
  refine ⟨⟨"Synthesis error: " ++ msg, rfl, ?_⟩, h2, by rw [h2]; decide⟩
  have hext : "Synthesis error: ".data <+: ("Synthesis error: " ++ msg).data := by
    rw [String.data_append]
    exact List.prefix_append _ _
  exact List.IsPrefix.trans (by decide) hext

/-! ## C8 — `analysis_path` is only ever downgraded after initialization -/

theorem applyStep_path (step : NodeStep) (state : ReviewState) :
    (applyStep step state).analysis_path = state.analysis_path ∨
    (applyStep step state).analysis_path = "simple" := by
  cases step with
  | route cfg =>
    show (route_analysis_type cfg state).analysis_path = _ ∨
      (route_analysis_type cfg state).analysis_path = _
    unfold route_analysis_type
    cases hcfg : cfg.arch_analysis_enabled <;>
      cases hskip : cfg.arch_skip_small_prs <;>
        simp only [hcfg, hskip, Bool.not_false, Bool.not_true, if_true, if_false] <;>
          (try split_ifs) <;> simp
  | basic svc sub prog =>
    show (run_basic_review svc sub prog state).analysis_path = _ ∨
      (run_basic_review svc sub prog state).analysis_path = _
    unfold run_basic_review
    cases svc <;> split_ifs <;>
      by_cases hr : optTruthy state.rubric = false <;> simp [hr]
  | arch outcome =>
    show (run_architectural_analysis outcome state).analysis_path = _ ∨
      (run_architectural_analysis outcome state).analysis_path = _
    unfold run_architectural_analysis
    cases outcome <;> simp
  | enrich => exact Or.inl rfl
  | synth base =>
    show (synthesize_final_feedback base state).analysis_path = _ ∨
      (synthesize_final_feedback base state).analysis_path = _
    unfold synthesize_final_feedback
    cases base <;> simp
  | save exc db =>
    show ((save_review_results exc state db).1).analysis_path = _ ∨
      ((save_review_results exc state db).1).analysis_path = _
    unfold save_review_results
    cases exc <;> simp

/-- C8: `initialize_review` leaves `analysis_path` at `"enhanced"` or
`"simple"`; every later workflow node either leaves `analysis_path`
unchanged or sets it to `"simple"` (for all external inputs); consequently,
along any sequence of post-initialization node executions, a state whose
path is `"simple"` is never upgraded back to `"enhanced"`. -/
theorem analysis_path_only_downgrades :
    (∀ state : ReviewState, (initialize_review state).analysis_path = "enhanced" ∨
      (initialize_review state).analysis_path = "simple") ∧
    (∀ (step : NodeStep) (state : ReviewState),
      (applyStep step state).analysis_path = state.analysis_path ∨
      (applyStep step state).analysis_path = "simple") ∧
    (∀ (steps : List NodeStep) (state : ReviewState),
      state.analysis_path = "simple" →
      (steps.foldl (fun s step => applyStep step s) state).analysis_path = "simple") := by
  refine ⟨?_, applyStep_path, ?_⟩
  · intro state
    by_cases h : optTruthy state.pr_metadata <;> simp [initialize_review, h]
  · intro steps
    induction steps with
    | nil => intro state h; simpa using h
    | cons step rest ih =>
      intro state h
      rw [List.foldl_cons]
      apply ih
      rcases applyStep_path step state with hp | hp
      · rw [hp, h]
      · exact hp

/-- Concrete instantiation of `analysis_path_only_downgrades`: a simple-path
state stays simple across an enrich + failing-synthesis sequence. -/
theorem analysis_path_only_downgrades_witness :
    (([NodeStep.enrich, NodeStep.synth (.error "boom")].foldl
      (fun s step => applyStep step s)
      { submission_id := 1, analysis_path := "simple" }).analysis_path = "simple") :=
  analysis_path_only_downgrades.2.2 _ _ rfl

/-! ## C5 — idempotent upsert keyed by the submission id -/

theorem updateFirstFeedback_append {sid : Nat} {new r1 : AIFeedbackRow}
    {rows : List AIFeedbackRow}
    (h : ∀ r ∈ rows, ¬(r.submission_id = sid)) (h1 : r1.submission_id = sid) :
    updateFirstFeedback sid new (rows ++ [r1]) = rows ++ [new] := by
  induction rows with
  | nil => simp [updateFirstFeedback, h1]
  | cons r rest ih =>
    rw [List.cons_append, updateFirstFeedback, if_neg (h r (List.mem_cons_self r rest)),
      ih (fun x hx => h x (List.mem_cons_of_mem r hx))]
    rfl

/-- C5: starting from a store with no feedback record for the submission id,
calling `save_review_results` twice with the same `submission_id` leaves
exactly one stored feedback record for that id (the first call inserts, the
second updates in place), and that record carries the second call's content
(`feedbackRowOf s2`, whose `content` field is `s2.final_content`). -/
theorem save_results_idempotent_upsert (db : DB) (s1 s2 : ReviewState)
    (hid : s1.submission_id = s2.submission_id)
    (hempty : db.ai_feedbacks.filter
      (fun r => r.submission_id = s2.submission_id) = []) :
    ((save_review_results none s2 (save_review_results none s1 db).2).2.ai_feedbacks.filter
      (fun r => r.submission_id = s2.submission_id)) = [feedbackRowOf s2] ∧
    (feedbackRowOf s2).content = s2.final_content := by
  refine ⟨?_, rfl⟩
  have hall : ∀ r ∈ db.ai_feedbacks, ¬(r.submission_id = s2.submission_id) := by
    intro r hr
    have := List.filter_eq_nil_iff.1 hempty r hr
    simpa using this
  -- first save inserts
  have hfind1 : db.ai_feedbacks.find?
      (fun r => r.submission_id = s1.submission_id) = none := by
    rw [List.find?_eq_none]
    intro r hr
    simp only [decide_eq_true_eq]
    rw [hid]
    exact hall r hr
  have hsave1 : (save_review_results none s1 db).2.ai_feedbacks
      = db.ai_feedbacks ++ [feedbackRowOf s1] := by
    simp only [save_review_results, hfind1]
  -- second save updates the inserted row
  have hrow1 : (feedbackRowOf s1).submission_id = s2.submission_id := hid
  have hfind2 : (db.ai_feedbacks ++ [feedbackRowOf s1]).find?
      (fun r => r.submission_id = s2.submission_id) = some (feedbackRowOf s1) := by
    rw [List.find?_append]
    have hnone : db.ai_feedbacks.find?
        (fun r => r.submission_id = s2.submission_id) = none := by
      rw [List.find?_eq_none]
      intro r hr
      simp only [decide_eq_true_eq]
      exact hall r hr
    rw [hnone]
    simp [List.find?, hrow1]
  have hsave2 : (save_review_results none s2
      (save_review_results none s1 db).2).2.ai_feedbacks
      = db.ai_feedbacks ++ [feedbackRowOf s2] := by
    simp only [save_review_results, hfind1, hfind2]
    exact updateFirstFeedback_append hall hrow1
  rw [hsave2, List.filter_append, hempty]
  simp [List.filter, feedbackRowOf]

/-- Concrete instantiation of `save_results_idempotent_upsert` on an empty
store. -/
theorem save_results_idempotent_upsert_witness :
    ((save_review_results none saveWitnessState2
        (save_review_results none saveWitnessState1 ⟨[], []⟩).2).2.ai_feedbacks.filter
      (fun r => r.submission_id = saveWitnessState2.submission_id))
      = [feedbackRowOf saveWitnessState2] ∧
    (feedbackRowOf saveWitnessState2).content = saveWitnessState2.final_content :=
  save_results_idempotent_upsert ⟨[], []⟩ saveWitnessState1 saveWitnessState2 rfl rfl

/-! ## C2 — API change classification (corrected: no symmetric cancellation) -/

theorem apiStep_eq (acc : List Endpoint × List Endpoint) (p : String × FileChange) :
    apiStep acc p = (acc.1 ++ apiNewContribution p, acc.2 ++ apiRemovedContribution p) := by
  unfold apiStep apiNewContribution apiRemovedContribution
  cases p.2.language with
  | none => simp
  | some language =>
    by_cases h1 : language ∉ apiLanguages
    · simp [h1]
    · by_cases h2 : p.2.patch = ""
      · simp [h1, h2]
      · simp [h1, h2]

theorem api_foldl_eq (fcs : FileChanges) :
    ∀ acc : List Endpoint × List Endpoint,
      fcs.foldl apiStep acc
        = (acc.1 ++ (fcs.map apiNewContribution).flatten,
           acc.2 ++ (fcs.map apiRemovedContribution).flatten) := by
  induction fcs with
  | nil => intro acc; simp
  | cons p rest ih =>
    intro acc
    rw [List.foldl_cons, apiStep_eq, ih]
    simp

theorem analyze_api_new (fcs : FileChanges) :
    (analyze_api_changes fcs).new_endpoints = (fcs.map apiNewContribution).flatten := by
  show (fcs.foldl apiStep ([], [])).1 = _
  rw [api_foldl_eq]
  simp

theorem analyze_api_removed (fcs : FileChanges) :
    (analyze_api_changes fcs).removed_endpoints
      = (fcs.map apiRemovedContribution).flatten := by
  show (fcs.foldl apiStep ([], [])).2 = _
  rw [api_foldl_eq]
  simp

theorem mem_apiNewContribution {ep : Endpoint} {p : String × FileChange} :
    ep ∈ apiNewContribution p ↔
      ∃ language, p.2.language = some language ∧ language ∈ apiLanguages ∧
        p.2.patch ≠ "" ∧
        ∃ r ∈ parse_api_routes (addedCodeOf p.2) language, ep = mkEndpoint p.1 r := by
  unfold apiNewContribution
  cases hl : p.2.language with
  | none => simp [hl]
  | some language =>
    simp only [hl, Option.some.injEq]
    by_cases h1 : language ∉ apiLanguages
    · rw [if_pos h1]
      simp only [List.not_mem_nil, false_iff]
      rintro ⟨lang, rfl, hmem, -⟩
      exact h1 hmem
    · rw [if_neg h1]
      by_cases h2 : p.2.patch = ""
      · rw [if_pos h2]
        simp only [List.not_mem_nil, false_iff]
        rintro ⟨lang, rfl, -, hne, -⟩
        exact hne h2
      · rw [if_neg h2, List.mem_map]
        constructor
        · rintro ⟨r, hr, rfl⟩
          exact ⟨language, rfl, not_not.1 h1, h2, r, hr, rfl⟩
        · rintro ⟨lang, rfl, -, -, r, hr, hep⟩
          exact ⟨r, hr, hep.symm⟩

theorem mem_apiRemovedContribution {ep : Endpoint} {p : String × FileChange} :
    ep ∈ apiRemovedContribution p ↔
      ∃ language, p.2.language = some language ∧ language ∈ apiLanguages ∧
        p.2.patch ≠ "" ∧
        ∃ r ∈ parse_api_routes (removedCodeOf p.2) language, ep = mkEndpoint p.1 r := by
  unfold apiRemovedContribution
  cases hl : p.2.language with
  | none => simp [hl]
  | some language =>
    simp only [hl, Option.some.injEq]
    by_cases h1 : language ∉ apiLanguages
    · rw [if_pos h1]
      simp only [List.not_mem_nil, false_iff]
      rintro ⟨lang, rfl, hmem, -⟩
      exact h1 hmem
    · rw [if_neg h1]
      by_cases h2 : p.2.patch = ""
      · rw [if_pos h2]
        simp only [List.not_mem_nil, false_iff]
        rintro ⟨lang, rfl, -, hne, -⟩
        exact hne h2
      · rw [if_neg h2, List.mem_map]
        constructor
        · rintro ⟨r, hr, rfl⟩
          exact ⟨language, rfl, not_not.1 h1, h2, r, hr, rfl⟩
        · rintro ⟨lang, rfl, -, -, r, hr, hep⟩
          exact ⟨r, hr, hep.symm⟩

/-- C2 (amended): `_analyze_api_changes` performs no symmetric cancellation —
`new_endpoints` are exactly *all* routes parsed from the added lines of each
eligible file, `removed_endpoints` exactly all routes parsed from the removed
lines (a route present in both added and removed text appears in *both*
lists), and `breaking_changes` is non-empty iff at least one endpoint was
removed. -/
theorem api_changes_characterization (fcs : FileChanges) :
    ((analyze_api_changes fcs).breaking_changes ≠ [] ↔
      (analyze_api_changes fcs).removed_endpoints ≠ []) ∧
    (∀ ep : Endpoint, ep ∈ (analyze_api_changes fcs).new_endpoints ↔
      ∃ fn ch, (fn, ch) ∈ fcs ∧
        ∃ language, ch.language = some language ∧ language ∈ apiLanguages ∧
          ch.patch ≠ "" ∧
          ∃ r ∈ parse_api_routes (addedCodeOf ch) language, ep = mkEndpoint fn r) ∧
    (∀ ep : Endpoint, ep ∈ (analyze_api_changes fcs).removed_endpoints ↔
      ∃ fn ch, (fn, ch) ∈ fcs ∧
        ∃ language, ch.language = some language ∧ language ∈ apiLanguages ∧
          ch.patch ≠ "" ∧
          ∃ r ∈ parse_api_routes (removedCodeOf ch) language, ep = mkEndpoint fn r) := by
  refine ⟨?_, ?_, ?_⟩
  · have hrem : (analyze_api_changes fcs).removed_endpoints
        = (fcs.foldl apiStep ([], [])).2 := rfl
    have hbrk : (analyze_api_changes fcs).breaking_changes
        = (if (fcs.foldl apiStep ([], [])).2 ≠ [] then
            ["Removed " ++ toString (fcs.foldl apiStep ([], [])).2.length
              ++ " endpoint(s) - potential breaking change"]
          else []) := rfl
    rw [hrem, hbrk]
    by_cases h : (fcs.foldl apiStep ([], [])).2 = []
    · rw [if_neg (not_not_intro h)]
      exact iff_of_false (by simp) (not_not_intro h)
    · rw [if_pos h]
      exact iff_of_true (by simp) h
  · intro ep
    rw [analyze_api_new, List.mem_flatten]
    constructor
    · rintro ⟨l, hl, hep⟩
      obtain ⟨p, hp, rfl⟩ := List.mem_map.1 hl
      obtain ⟨lang, h1, h2, h3, r, hr, rfl⟩ := mem_apiNewContribution.1 hep
      exact ⟨p.1, p.2, by simpa using hp, lang, h1, h2, h3, r, hr, rfl⟩
    · rintro ⟨fn, ch, hmem, lang, h1, h2, h3, r, hr, rfl⟩
      exact ⟨apiNewContribution (fn, ch), List.mem_map.2 ⟨(fn, ch), hmem, rfl⟩,
        mem_apiNewContribution.2 ⟨lang, h1, h2, h3, r, hr, rfl⟩⟩
  · intro ep
    rw [analyze_api_removed, List.mem_flatten]
    constructor
    · rintro ⟨l, hl, hep⟩
      obtain ⟨p, hp, rfl⟩ := List.mem_map.1 hl
      obtain ⟨lang, h1, h2, h3, r, hr, rfl⟩ := mem_apiRemovedContribution.1 hep
      exact ⟨p.1, p.2, by simpa using hp, lang, h1, h2, h3, r, hr, rfl⟩
    · rintro ⟨fn, ch, hmem, lang, h1, h2, h3, r, hr, rfl⟩
      exact ⟨apiRemovedContribution (fn, ch), List.mem_map.2 ⟨(fn, ch), hmem, rfl⟩,
        mem_apiRemovedContribution.2 ⟨lang, h1, h2, h3, r, hr, rfl⟩⟩

/-- C2 counterexample: a patch whose added *and* removed lines both contain
the same route declaration.  The route is present in both texts, yet it
appears in *both* `new_endpoints` and `removed_endpoints` (and
`breaking_changes` is non-empty), not in neither as the claim states. -/
theorem api_changes_counterexample :
    parse_api_routes (addedCodeOf apiCounterCh) "python"
      = parse_api_routes (removedCodeOf apiCounterCh) "python" ∧
    parse_api_routes (addedCodeOf apiCounterCh) "python" ≠ [] ∧
    (analyze_api_changes [("app.py", apiCounterCh)]).new_endpoints
      = [⟨"GET", "/x", "app.py", "unknown"⟩] ∧
    (analyze_api_changes [("app.py", apiCounterCh)]).removed_endpoints
      = [⟨"GET", "/x", "app.py", "unknown"⟩] := by
  refine ⟨by decide, by decide, by decide, by decide⟩

/-! ## C7 — destructive migration ⇒ schema breaking change ⇒ risk ≠ low -/

theorem listInfixB_iff (n : Chars) : ∀ h : Chars, (listInfixB n h = true ↔ n <:+: h) := by
  intro h
  induction h with
  | nil => simp [listInfixB]
  | cons c rest ih =>
    simp [listInfixB, List.isPrefixOf_iff_prefix, ih, List.infix_cons_iff]

theorem schemaStep_breaking (acc : SchemaAcc) (p : String × FileChange) :
    (schemaStep acc p).breaking_changes
      = acc.breaking_changes ++ schemaBreakingContribution p := by
  rcases p with ⟨fn, ch⟩
  simp only [schemaStep, schemaBreakingContribution]
  split_ifs <;> simp

theorem schema_foldl_breaking (fcs : FileChanges) :
    ∀ acc : SchemaAcc, (fcs.foldl schemaStep acc).breaking_changes
      = acc.breaking_changes ++ (fcs.map schemaBreakingContribution).flatten := by
  induction fcs with
  | nil => intro acc; simp
  | cons p rest ih =>
    intro acc
    rw [List.foldl_cons, ih, schemaStep_breaking]
    simp

theorem analyze_schema_breaking (fcs : FileChanges) :
    (analyze_schema_changes fcs).breaking_changes
      = (fcs.map schemaBreakingContribution).flatten := by
  have := schema_foldl_breaking fcs ⟨[], [], [], []⟩
  simpa [analyze_schema_changes] using this

/-- C7: if the change collection deletes a migration file (filename matching
the migration-path conventions) whose patch contains `"DROP TABLE users"`,
then the schema report's `breaking_changes` is non-empty, and the impact
assessment's risk is not `"low"`. -/
theorem migration_drop_table_breaking_risk (fcs : FileChanges) (fn : String)
    (ch : FileChange) (hmem : (fn, ch) ∈ fcs) (hstatus : ch.status = "removed")
    (hmig : is_migration_file fn = true)
    (hdrop : "DROP TABLE users".data <:+: ch.patch.data) :
    (analyzeFileChanges fcs).schema_changes.breaking_changes ≠ [] ∧
    (analyzeFileChanges fcs).impact.risk ≠ "low" := by
  have hkw : (["drop table", "drop column", "alter column"].any
      (fun k => pyIn k (pyLower ch.patch))) = true := by
    have hmap : "DROP TABLE users".data.map Char.toLower
        <:+: ch.patch.data.map Char.toLower := hdrop.map Char.toLower
    have hw : "DROP TABLE users".data.map Char.toLower = "drop table users".data := by
      decide
    rw [hw] at hmap
    have hlow : "drop table".data <:+: (pyLower ch.patch).data :=
      List.IsInfix.trans (by decide) hmap
    have hfirst : pyIn "drop table" (pyLower ch.patch) = true :=
      (listInfixB_iff _ _).2 hlow
    simp [List.any_eq_true]
    exact Or.inl hfirst
  have hcontrib : schemaBreakingContribution (fn, ch)
      = ["Migration " ++ fn ++ " contains potentially breaking schema changes"] := by
    simp [schemaBreakingContribution, hmig, hkw]
  have hb : ("Migration " ++ fn ++ " contains potentially breaking schema changes")
      ∈ (analyze_schema_changes fcs).breaking_changes := by
    rw [analyze_schema_breaking]
    refine List.mem_flatten.2 ⟨schemaBreakingContribution (fn, ch),
      List.mem_map.2 ⟨(fn, ch), hmem, rfl⟩, ?_⟩
    rw [hcontrib]
    exact List.mem_singleton.2 rfl
  have hbne : (analyze_schema_changes fcs).breaking_changes ≠ [] := by
    intro hc
    rw [hc] at hb
    exact List.not_mem_nil _ hb
  refine ⟨hbne, ?_⟩
  have hlen : 1 ≤ (riskFactorsOf (analyze_dependencies fcs) (analyze_api_changes fcs)
      (analyze_schema_changes fcs)).length := by
    have hpos : 0 < (analyze_schema_changes fcs).breaking_changes.length :=
      List.length_pos.2 hbne
    unfold riskFactorsOf
    rw [if_pos hbne]
    simp only [List.length_append]
    omega
  show riskOf (riskFactorsOf (analyze_dependencies fcs) (analyze_api_changes fcs)
      (analyze_schema_changes fcs)).length ≠ "low"
  unfold riskOf
  split_ifs with g1
  · decide
  · decide

/-- Concrete instantiation of `migration_drop_table_breaking_risk`. -/
theorem migration_drop_table_breaking_risk_witness :
    (analyzeFileChanges migrationWitnessFcs).schema_changes.breaking_changes ≠ [] ∧
    (analyzeFileChanges migrationWitnessFcs).impact.risk ≠ "low" :=
  migration_drop_table_breaking_risk migrationWitnessFcs "app/migrations/001_drop.sql"
    ⟨"app/migrations/001_drop.sql", "removed", 0, 1, "-DROP TABLE users;", none⟩
    (by decide) rfl (by decide) (by decide)

/-- Concrete instantiation of `parser_totality_empty_nonmatching`. -/
theorem parser_totality_empty_nonmatching_witness :
    parse_imports "import os" "cobol" = [] ∧
    parse_imports "" "python" = [] ∧
    parse_imports "x = 1\n# comment, no imports\nprint(x)" "python" = [] := by
  refine ⟨(parser_totality_empty_nonmatching.1 "import os" "cobol" (by decide)).1,
    parser_totality_empty_nonmatching.2.1 "python",
    parser_totality_empty_nonmatching.2.2 "x = 1\n# comment, no imports\nprint(x)"
      "python" (by decide)⟩

end CodeDojo
